import Mathlib

/-!
# Gossamer: Levenberg–Marquardt model callbacks and fitting engine

A shallow embedding of `src/testLevenbergMarquardt.cc` (the model callbacks
`gaussian` and `kmerModel`) and of the fitting engine they are handed to.

`double` values are embedded as elements of a linearly ordered field `α`
(instantiated at `ℚ` for concrete runs); infinities and NaN are not
represented.  The comparisons `stddev < 0.0` and `lambda < 0.0` are false on
NaN and on negative zero, which agrees with the order of `α` on every value
that `α` represents.

Each callback is embedded twice.  `gaussian` and `kmerModel` carry out the
arithmetic exactly; they serve the properties that rounding does not touch
(the domain check, the order of the library calls, lengths, the pointwise
structure, signs).  `gaussianRounded` and `kmerModelRounded` pass the exact
result of every `double` operation through the rounding `fl` of the format;
they serve the properties of the computed values.  With `fl` the identity the
two agree.
-/

namespace Gossamer

/-! ## Model callbacks (`src/testLevenbergMarquardt.cc`) -/

/-- Ways a call of a model callback can end without a value. -/
inductive Exn where
  /-- The exception `LevenbergMarquardt::DomainError`. -/
  | DomainError
  /-- An exception thrown inside a `boost::math` call. -/
  | LibraryError
  /-- A read `pParams[i]` past the end of the parameter vector. -/
  | OutOfRange
  deriving DecidableEq, Repr

/-- The `boost::math` primitives used by the callbacks.  They are not part of
the repository, so they are taken as parameters.  `normal mean stddev` stands
for constructing `boost::math::normal(mean, stddev)` and `poisson lambda` for
`boost::math::poisson(lambda)`; the function obtained is `pdf(dist, ·)`.
`none` stands for the library call throwing. -/
structure Boost (α : Type) where
  normal : α → α → Option (α → Option α)
  poisson : α → Option (α → Option α)

/-- A library call inside a callback: a throw becomes `Exn.LibraryError`. -/
def liftLib {β : Type} : Option β → Except Exn β
  | some b => .ok b
  | none => .error .LibraryError

section Callbacks

variable {α : Type} [LinearOrderedField α]

/-- The callback `gaussian` of `testLevenbergMarquardt.cc`:
`ys[i] = w * pdf(normal(mean, stddev), pX[i])`, after the domain check
`stddev < 0.0`. -/
def gaussian (B : Boost α) (pParams pX : List α) : Except Exn (List α) :=
  match pParams with
  | w :: mean :: stddev :: _ =>
    if stddev < 0 then .error .DomainError
    else do
      let normDist ← liftLib (B.normal mean stddev)
      pX.mapM fun x => do
        let d ← liftLib (normDist x)
        pure (w * d)
  | _ => .error .OutOfRange

/-- The callback `kmerModel` of `testLevenbergMarquardt.cc`: a Poisson/normal
mixture rescaled by `1000 / (1 - massAtZero - massAtOne)`, after the domain
check `stddev < 0.0 || lambda < 0.0`. -/
def kmerModel (B : Boost α) (pParams pX : List α) : Except Exn (List α) :=
  match pParams with
  | mix :: lambda :: mean :: stddev :: _ =>
    if stddev < 0 ∨ lambda < 0 then .error .DomainError
    else do
      let poissDist ← liftLib (B.poisson lambda)
      let normDist ← liftLib (B.normal mean stddev)
      let p0 ← liftLib (poissDist 0)
      let n0 ← liftLib (normDist 0)
      let massAtZero := mix * p0 + (1 - mix) * n0
      let p1 ← liftLib (poissDist 1)
      let n1 ← liftLib (normDist 1)
      let massAtOne := mix * p1 + (1 - mix) * n1
      let scale := 1000 / (1 - massAtZero - massAtOne)
      pX.mapM fun x => do
        let p ← liftLib (poissDist x)
        let n ← liftLib (normDist x)
        pure (scale * (mix * p + (1 - mix) * n))
  | _ => .error .OutOfRange

/-- The mixture that `kmerModel` evaluates at `0`, at `1` and at each input,
`mix * pdf(poissDist, x) + (1.0 - mix) * pdf(normDist, x)`, for given values
of the two densities. -/
def mixture (mix : α) (ppdf npdf : α → α) (x : α) : α :=
  mix * ppdf x + (1 - mix) * npdf x

end Callbacks

/-! ## Double arithmetic

An operation on `double` values stores the exact result rounded to the
format.  `roundDouble` is that rounding for IEEE 754 binary64 in its normal
range; overflow and subnormal results are not represented.  In the rounded
callbacks every operation is rounded on its own, with no fused multiply-add
and no wider intermediate precision. -/

/-- Round a rational to the nearest integer, a tie to the even one. -/
def roundHalfEven (q : ℚ) : ℤ :=
  if q - ⌊q⌋ < 1 / 2 then ⌊q⌋
  else if 1 / 2 < q - ⌊q⌋ then ⌊q⌋ + 1
  else if ⌊q⌋ % 2 = 0 then ⌊q⌋ else ⌊q⌋ + 1

/-- The number of halvings that bring `n` below `2`, at most `fuel` of them;
`halvings n n` is `⌊log₂ n⌋` for `n ≥ 1`. -/
def halvings : Nat → Nat → Nat
  | 0, _ => 0
  | fuel + 1, n => if 2 ≤ n then halvings fuel (n / 2) + 1 else 0

/-- The binary exponent `⌊log₂ |q|⌋` of a rational `q ≠ 0`: the difference of
the exponents of numerator and denominator, or one less. -/
def binaryExponent (q : ℚ) : ℤ :=
  if (2 : ℚ) ^ ((halvings q.num.natAbs q.num.natAbs : ℤ) - (halvings q.den q.den : ℤ)) ≤ |q|
  then (halvings q.num.natAbs q.num.natAbs : ℤ) - (halvings q.den q.den : ℤ)
  else (halvings q.num.natAbs q.num.natAbs : ℤ) - (halvings q.den q.den : ℤ) - 1

/-- The `double` nearest to a rational: round to nearest, ties to even, with a
significand of 53 bits (a multiple of `2 ^ (e - 52)` for the binary exponent
`e`). -/
def roundDouble (q : ℚ) : ℚ :=
  if q = 0 then 0
  else roundHalfEven (q / 2 ^ (binaryExponent q - 52)) * 2 ^ (binaryExponent q - 52)

section RoundedCallbacks

variable {α : Type} [LinearOrderedField α]

/-- The callback `gaussian` of `testLevenbergMarquardt.cc` with its `double`
product rounded: `ys[i] = fl(w * pdf(normDist, pX[i]))`. -/
def gaussianRounded (fl : α → α) (B : Boost α) (pParams pX : List α) :
    Except Exn (List α) :=
  match pParams with
  | w :: mean :: stddev :: _ =>
    if stddev < 0 then .error .DomainError
    else do
      let normDist ← liftLib (B.normal mean stddev)
      pX.mapM fun x => do
        let d ← liftLib (normDist x)
        pure (fl (w * d))
  | _ => .error .OutOfRange

/-- The mixture of `kmerModel` with every `double` operation rounded:
`mix * p`, `1.0 - mix`, `(1.0 - mix) * n` and the sum, in the order of the
source expression. -/
def mixtureRounded (fl : α → α) (mix : α) (ppdf npdf : α → α) (x : α) : α :=
  fl (fl (mix * ppdf x) + fl (fl (1 - mix) * npdf x))

/-- The callback `kmerModel` of `testLevenbergMarquardt.cc` with every
`double` operation rounded, each in the order the source evaluates it:
`1.0 - massAtZero - massAtOne` is `(1.0 - massAtZero) - massAtOne`. -/
def kmerModelRounded (fl : α → α) (B : Boost α) (pParams pX : List α) :
    Except Exn (List α) :=
  match pParams with
  | mix :: lambda :: mean :: stddev :: _ =>
    if stddev < 0 ∨ lambda < 0 then .error .DomainError
    else do
      let poissDist ← liftLib (B.poisson lambda)
      let normDist ← liftLib (B.normal mean stddev)
      let p0 ← liftLib (poissDist 0)
      let n0 ← liftLib (normDist 0)
      let massAtZero := fl (fl (mix * p0) + fl (fl (1 - mix) * n0))
      let p1 ← liftLib (poissDist 1)
      let n1 ← liftLib (normDist 1)
      let massAtOne := fl (fl (mix * p1) + fl (fl (1 - mix) * n1))
      let scale := fl (1000 / fl (fl (1 - massAtZero) - massAtOne))
      pX.mapM fun x => do
        let p ← liftLib (poissDist x)
        let n ← liftLib (normDist x)
        pure (fl (scale * fl (fl (mix * p) + fl (fl (1 - mix) * n))))
  | _ => .error .OutOfRange

end RoundedCallbacks

/-! ## Test fixtures (`src/testLevenbergMarquardt.cc`)

What each test case hands to the constructor of the engine: the initial
guess and the data set, of which the `x` column and the size are exact (the
`y` column is floating-point and is not embedded for the simulated fits). -/

/-- The `x` values of `testGaussianFit`: `xs[x - xmin] = x` for
`x = xmin .. xmax` with `xmin = 1`, `xmax = 50000`; `data` gets one pair per
entry. -/
def gaussianFitXs : List ℕ := (List.range (50000 - 1 + 1)).map fun i => 1 + i

/-- The initial guess `guessParams` of `testGaussianFit`. -/
def gaussianFitGuess : List ℚ := [100, 10, 5]

/-- The `x` values of `testSimulatedKmerModelFit`: `xs[x] = x + 1` for
`x < 500`; `data` gets one pair per entry. -/
def simulatedFitXs : List ℕ := (List.range 500).map fun x => x + 1

/-- The initial guess `guessParams` of `testSimulatedKmerModelFit`. -/
def simulatedFitGuess : List ℚ := [1 / 2, 1, 200, 50]

/-- The table `sKmerData` (k-mer multiplicity, count); the row for
multiplicity `1` is commented out in the source. -/
def sKmerData : List (ℕ × ℕ) :=
  [(2, 2877282), (3, 496376), (4, 167942), (5, 82786), (6, 48588), (7, 32696), (8, 22300),
   (9, 16716), (10, 13008), (11, 10788), (12, 9002), (13, 7772), (14, 6646), (15, 5464),
   (16, 5402), (17, 4816), (18, 4178), (19, 4044), (20, 3892), (21, 3882), (22, 3924),
   (23, 4422), (24, 4156), (25, 4198), (26, 3918), (27, 4074), (28, 4098), (29, 4310),
   (30, 4808), (31, 4632), (32, 4894), (33, 5050), (34, 5110), (35, 5200), (36, 5369),
   (37, 5868), (38, 5976), (39, 5988), (40, 5788), (41, 6398), (42, 6516), (43, 6542),
   (44, 6966), (45, 7064), (46, 7210), (47, 7322), (48, 7284), (49, 7686), (50, 7772),
   (51, 7814), (52, 8212), (53, 8630), (54, 8956), (55, 9220), (56, 9412), (57, 9804),
   (58, 10350), (59, 10466), (60, 10760), (61, 10984), (62, 11598), (63, 11948),
   (64, 12336), (65, 12420), (66, 12724), (67, 13038), (68, 13526), (69, 13730),
   (70, 14300), (71, 14786), (72, 15178), (73, 15742), (74, 16332), (75, 16592),
   (76, 16916), (77, 18304), (78, 18844), (79, 19634), (80, 20120), (81, 20280),
   (82, 21022), (83, 20888), (84, 21774), (85, 22490), (86, 23008), (87, 23922),
   (88, 24386), (89, 25346), (90, 25906), (91, 27270), (92, 28268), (93, 28544),
   (94, 29382), (95, 30354), (96, 30792), (97, 31438), (98, 32006), (99, 33386),
   (100, 34346), (101, 34922), (102, 36206), (103, 36812), (104, 38293), (105, 38908),
   (106, 39844), (107, 40872), (108, 41332), (109, 42564), (110, 43158), (111, 44988),
   (112, 45482), (113, 46832), (114, 47514), (115, 48644), (116, 49908), (117, 52144),
   (118, 53896), (119, 55864), (120, 58022), (121, 58960), (122, 61424), (123, 62642),
   (124, 63666), (125, 65172), (126, 66798), (127, 68332), (128, 70408), (129, 72346),
   (130, 74340), (131, 77226), (132, 77526), (133, 79842), (134, 82602), (135, 82712),
   (136, 85562), (137, 87328), (138, 88464), (139, 89684), (140, 91290), (141, 92646),
   (142, 93096), (143, 95494), (144, 95434), (145, 96106), (146, 97572), (147, 97596),
   (148, 99410), (149, 98504), (150, 99806), (151, 99862), (152, 99900), (153, 99560),
   (154, 99352), (155, 99520), (156, 98584), (157, 98610), (158, 98852), (159, 96598),
   (160, 97306), (161, 95652), (162, 94974), (163, 94192), (164, 93756), (165, 91416),
   (166, 89538), (167, 89236), (168, 87508), (169, 86010), (170, 84512), (171, 83314),
   (172, 81222), (173, 79356), (174, 78802), (175, 76606), (176, 74876), (177, 73386),
   (178, 72476), (179, 70564), (180, 68810), (181, 67810), (182, 66160), (183, 64216),
   (184, 62060), (185, 60282), (186, 58486), (187, 56994), (188, 55620), (189, 53946),
   (190, 52586), (191, 50126), (192, 49294), (193, 47168), (194, 46376), (195, 44526),
   (196, 42512), (197, 41326), (198, 40592), (199, 39038), (200, 38196), (201, 37080),
   (202, 35586), (203, 34372), (204, 32878), (205, 32056), (206, 30774), (207, 29906),
   (208, 28798), (209, 27834), (210, 26350), (211, 25246), (212, 24056), (213, 22912),
   (214, 21950), (215, 21488), (216, 20772), (217, 20084), (218, 19250), (219, 18674),
   (220, 17552), (221, 17082), (222, 16338), (223, 15904), (224, 15200), (225, 14228),
   (226, 14028), (227, 13324), (228, 12586), (229, 11966), (230, 11630), (231, 11204),
   (232, 10370), (233, 9914), (234, 9534), (235, 9136), (236, 8722), (237, 8154),
   (238, 8030), (239, 7452), (240, 7084), (241, 6526), (242, 6574), (243, 6056),
   (244, 5730), (245, 5116), (246, 4964), (247, 4618), (248, 4266), (249, 4116),
   (250, 3832), (251, 3740), (252, 3644), (253, 3346), (254, 3226), (255, 3128),
   (256, 2908), (257, 2712), (258, 2552), (259, 2494), (260, 2262), (261, 2010),
   (262, 1776), (263, 1732), (264, 1622), (265, 1702), (266, 1470), (267, 1474)]

/-- The initial guess `guessParams` of `testRealKmerModelFit`
(`0.8, 0.95, 150.0, 20.0`). -/
def realFitGuess : List ℚ := [8 / 10, 95 / 100, 150, 20]

/-- The table `sKmerData2` (k-mer multiplicity, count); the row for
multiplicity `1` is commented out in the source. -/
def sKmerData2 : List (ℕ × ℕ) :=
  [(2, 24119221), (3, 6630206), (4, 2333801), (5, 1010472), (6, 527884), (7, 318342),
   (8, 213968), (9, 152284), (10, 113820), (11, 89492), (12, 70528), (13, 57146),
   (14, 46824), (15, 39434), (16, 33191), (17, 28432), (18, 24754), (19, 21300),
   (20, 18866), (21, 16512), (22, 14824), (23, 13308), (24, 11766), (25, 10760),
   (26, 10042), (27, 9198), (28, 8031), (29, 7228), (30, 6976), (31, 6286), (32, 6072),
   (33, 5432), (34, 5204), (35, 4706), (36, 4302), (37, 4112), (38, 3900), (39, 3648),
   (40, 3572), (41, 3274), (42, 3122), (43, 2870), (44, 2848), (45, 2658), (46, 2530),
   (47, 2376), (48, 2288), (49, 2296), (50, 2216), (51, 2054), (52, 2068), (53, 2030),
   (54, 1876), (55, 1968), (56, 1790), (57, 1734), (58, 1668), (59, 1584), (60, 1584),
   (61, 1492), (62, 1480), (63, 1468), (64, 1370), (65, 1370), (66, 1222), (67, 1250),
   (68, 1218), (69, 1198), (70, 1180), (71, 1094), (72, 1072), (73, 1042), (74, 1094),
   (75, 914), (76, 928), (77, 914), (78, 964), (79, 868), (80, 1010), (81, 922), (82, 872),
   (83, 898), (84, 854), (85, 852), (86, 747), (87, 822), (88, 784), (89, 842), (90, 880),
   (91, 808), (92, 860), (93, 868), (94, 816), (95, 850), (96, 794), (97, 824), (98, 888),
   (99, 910), (100, 824), (101, 812), (102, 842), (103, 880), (104, 864), (105, 796),
   (106, 810), (107, 810), (108, 726), (109, 764), (110, 776), (111, 786), (112, 816),
   (113, 846), (114, 838), (115, 722), (116, 806), (117, 714), (118, 744), (119, 816),
   (120, 782), (121, 810), (122, 800), (123, 830), (124, 826), (125, 868), (126, 884),
   (127, 874), (128, 874), (129, 786), (130, 884), (131, 816), (132, 838), (133, 852),
   (134, 846), (135, 850), (136, 844), (137, 854), (138, 882), (139, 848), (140, 938),
   (141, 902), (142, 904), (143, 1002), (144, 952), (145, 884), (146, 942), (147, 970),
   (148, 1012), (149, 956), (150, 1020), (151, 1098), (152, 1100), (153, 994), (154, 1122),
   (155, 988), (156, 998), (157, 1192), (158, 1174), (159, 1100), (160, 1134), (161, 1122),
   (162, 1070), (163, 978), (164, 1052), (165, 1146), (166, 1038), (167, 1194), (168, 1144),
   (169, 1230), (170, 1134), (171, 1144), (172, 1212), (173, 1224), (174, 1200),
   (175, 1186), (176, 1166), (177, 1298), (178, 1164), (179, 1210), (180, 1362),
   (181, 1220), (182, 1278), (183, 1276), (184, 1286), (185, 1240), (186, 1348),
   (187, 1244), (188, 1328), (189, 1394), (190, 1326), (191, 1306), (192, 1316),
   (193, 1340), (194, 1344), (195, 1348), (196, 1330), (197, 1290), (198, 1418),
   (199, 1346), (200, 1436), (201, 1418), (202, 1430), (203, 1510), (204, 1576),
   (205, 1496), (206, 1528), (207, 1540), (208, 1700), (209, 1564), (210, 1528),
   (211, 1416), (212, 1490), (213, 1600), (214, 1558), (215, 1594), (216, 1622),
   (217, 1586), (218, 1688), (219, 1634), (220, 1758), (221, 1542), (222, 1662),
   (223, 1610), (224, 1704), (225, 1698), (226, 1692), (227, 1634), (228, 1662),
   (229, 1736), (230, 1802), (231, 1770), (232, 1678), (233, 1662), (234, 1746),
   (235, 1672), (236, 1792), (237, 1754), (238, 1810), (239, 1690), (240, 1864),
   (241, 1880), (242, 1754), (243, 1914), (244, 1898), (245, 1954), (246, 1916),
   (247, 1908), (248, 1878), (249, 1986), (250, 1938), (251, 1958), (252, 1926),
   (253, 1888), (254, 2016), (255, 1910), (256, 1892), (257, 1898), (258, 1900),
   (259, 1856), (260, 2006), (261, 2036), (262, 2084), (263, 1950), (264, 2132),
   (265, 2152), (266, 2086), (267, 2140), (268, 2214), (269, 2022), (270, 2138),
   (271, 2212), (272, 2074), (273, 2150), (274, 2134), (275, 2170), (276, 2106),
   (277, 2096), (278, 2274), (279, 2192), (280, 2100), (281, 2214), (282, 2260),
   (283, 2118), (284, 2332), (285, 2170), (286, 2352), (287, 2214), (288, 2348),
   (289, 2406), (290, 2414), (291, 2320), (292, 2346), (293, 2574), (294, 2476),
   (295, 2546), (296, 2440), (297, 2520), (298, 2432), (299, 2518), (300, 2616),
   (301, 2464), (302, 2670), (303, 2522), (304, 2638), (305, 2688), (306, 2646),
   (307, 2478), (308, 2570), (309, 2554), (310, 2584), (311, 2600), (312, 2628),
   (313, 2526), (314, 2778), (315, 2586), (316, 2778), (317, 2804), (318, 2624),
   (319, 2762), (320, 2668), (321, 2762), (322, 2854), (323, 2760), (324, 2890),
   (325, 2984), (326, 2770), (327, 2868), (328, 2960), (329, 3092), (330, 3052),
   (331, 3118), (332, 3124), (333, 3034), (334, 3140), (335, 3140), (336, 3380),
   (337, 3226), (338, 3224), (339, 3348), (340, 3266), (341, 3356), (342, 3360),
   (343, 3398), (344, 3488), (345, 3534), (346, 3304), (347, 3612), (348, 3480),
   (349, 3632), (350, 3520), (351, 3628), (352, 3536), (353, 3582), (354, 3554),
   (355, 3548), (356, 3616), (357, 3734), (358, 3618), (359, 3770), (360, 3726),
   (361, 3764), (362, 3696), (363, 3708), (364, 3736), (365, 3798), (366, 3668),
   (367, 3756), (368, 3908), (369, 4102), (370, 4134), (371, 4088), (372, 4162),
   (373, 4196), (374, 4052), (375, 4230), (376, 4414), (377, 4330), (378, 4134),
   (379, 4488), (380, 4514), (381, 4506), (382, 4704), (383, 4488), (384, 4392),
   (385, 4510), (386, 4812), (387, 4466), (388, 4536), (389, 4674), (390, 4824),
   (391, 4768), (392, 5050), (393, 4830), (394, 4812), (395, 5086), (396, 4880),
   (397, 5026), (398, 5036), (399, 5126), (400, 4878), (401, 5008), (402, 5440),
   (403, 5308), (404, 5202), (405, 5206), (406, 5275), (407, 5208), (408, 5144),
   (409, 5318), (410, 5228), (411, 5240), (412, 5372), (413, 5542), (414, 5386),
   (415, 5664), (416, 5604), (417, 5570), (418, 5694), (419, 5546), (420, 5692),
   (421, 5582), (422, 5632), (423, 5748), (424, 5562), (425, 5622), (426, 5834),
   (427, 5628), (428, 5762), (429, 5802), (430, 5666), (431, 5666), (432, 5964),
   (433, 5850), (434, 5962), (435, 6116), (436, 6068), (437, 5924), (438, 5912),
   (439, 5888), (440, 6300), (441, 6116), (442, 6504), (443, 6356), (444, 6528),
   (445, 6442), (446, 6594), (447, 6680), (448, 6908), (449, 6860), (450, 6964),
   (451, 6758), (452, 6992), (453, 6948), (454, 6856), (455, 6888), (456, 7140),
   (457, 6908), (458, 7088), (459, 6988), (460, 7134), (461, 7320), (462, 7280),
   (463, 7352), (464, 7288), (465, 7374), (466, 7452), (467, 7530), (468, 7282),
   (469, 7476), (470, 7620), (471, 7666), (472, 7614), (473, 7702), (474, 7848),
   (475, 7618), (476, 7664), (477, 7540), (478, 7686), (479, 7730), (480, 7642),
   (481, 7772), (482, 7896), (483, 7856), (484, 7896), (485, 8084), (486, 7932),
   (487, 7758), (488, 8354), (489, 8254), (490, 8218), (491, 8220), (492, 8318),
   (493, 8670), (494, 8416), (495, 8496), (496, 8290), (497, 8408), (498, 8174),
   (499, 8548), (500, 8648), (501, 8634), (502, 8626), (503, 8522), (504, 8736),
   (505, 8412), (506, 8710), (507, 8684), (508, 8486), (509, 8714), (510, 8764),
   (511, 8852), (512, 8818), (513, 8820), (514, 8962), (515, 8920), (516, 8798),
   (517, 9064), (518, 9180), (519, 9098), (520, 9276), (521, 9308), (522, 9446),
   (523, 9126), (524, 9412), (525, 9652), (526, 9582), (527, 9856), (528, 10004),
   (529, 9928), (530, 9910), (531, 10028), (532, 9924), (533, 10292), (534, 10152),
   (535, 10308), (536, 10370), (537, 10654), (538, 10412), (539, 10580), (540, 10460),
   (541, 10744), (542, 10816), (543, 10618), (576, 13128), (577, 13138), (578, 12924),
   (579, 13242), (580, 13702), (581, 13514), (582, 13702), (583, 13762), (584, 14196),
   (585, 13980), (586, 14232), (587, 13856), (588, 13968), (589, 14448), (590, 14396),
   (591, 14568), (592, 14758), (593, 14502), (594, 14912), (595, 14680), (596, 15096),
   (597, 14986), (598, 15096), (599, 15328), (600, 15376), (601, 15538), (602, 15750),
   (603, 15898), (604, 16198), (605, 15748), (606, 16308), (607, 16358), (608, 16330),
   (609, 16456), (610, 16606), (611, 16482), (612, 16902), (613, 16806), (614, 16960),
   (615, 17022), (616, 17306), (617, 17578), (618, 17706), (619, 17742), (620, 17548),
   (621, 17656), (622, 17864), (623, 17686), (624, 17986), (625, 18264), (626, 18064),
   (627, 18216), (628, 17936), (629, 18376), (630, 18436), (631, 18726), (632, 18694),
   (633, 18794), (634, 18818), (635, 19170), (636, 19142), (637, 19016), (638, 19706),
   (639, 19788), (640, 19448), (641, 20074), (642, 19720), (643, 19898), (644, 19700),
   (645, 20392), (646, 20336), (647, 20072), (648, 20210), (649, 20114), (650, 20388),
   (651, 20240), (652, 20302), (653, 20540), (654, 20610), (655, 20772), (656, 20818),
   (657, 21054), (658, 21392), (659, 20682), (660, 20816), (661, 21478), (662, 21330),
   (663, 21748), (664, 21732), (665, 21720), (666, 22106), (667, 22228), (668, 21846),
   (669, 22130), (670, 22128), (671, 22080), (672, 22650), (673, 22364), (674, 22292),
   (675, 22384), (676, 22462), (677, 22396), (678, 22570), (679, 22518), (680, 22450),
   (681, 23000), (682, 22994), (683, 22912), (684, 22816), (685, 23166), (686, 22852),
   (687, 23096), (688, 23256), (689, 22868), (690, 23306), (691, 23464), (692, 23138),
   (693, 23158), (694, 23298), (695, 23474), (696, 23610), (697, 23074), (698, 23270),
   (699, 23360), (700, 23424), (701, 23044), (702, 23272), (703, 23166), (704, 23112),
   (705, 23128), (706, 23482), (707, 23214), (708, 22820), (709, 22968), (710, 23216),
   (711, 23446), (712, 22872), (713, 23000), (714, 23428), (715, 22862), (716, 23322),
   (717, 22962), (718, 23040), (719, 23288), (720, 23200), (721, 23116), (722, 23456),
   (723, 23256), (724, 23156), (725, 23182), (726, 23096), (727, 23198), (728, 23028),
   (729, 23018), (730, 23272), (731, 23186), (732, 23080), (733, 22862), (734, 22972),
   (735, 22698), (736, 22950), (737, 22444), (738, 22680), (739, 22638), (740, 22416),
   (741, 22506), (742, 22976), (743, 22200), (744, 22588), (745, 22916), (746, 22730),
   (747, 22338), (748, 22580), (749, 22670), (750, 22092), (751, 22564), (752, 22150),
   (753, 22026), (754, 21800), (755, 21876), (756, 21954), (757, 21778), (758, 21550),
   (759, 22156), (760, 21618), (761, 21226), (762, 21398), (763, 21320), (764, 21678),
   (765, 21174), (766, 21556), (767, 21454), (768, 21360), (769, 21154), (770, 20754),
   (771, 20956), (772, 20724), (773, 20894), (774, 20574), (775, 20302), (776, 20324),
   (777, 20056), (778, 20274), (779, 19862), (780, 20274), (781, 20046), (782, 19810),
   (783, 19716), (784, 19318), (785, 19160), (786, 19438), (787, 19248), (788, 18882),
   (789, 19044), (790, 18916), (791, 18904), (792, 18546), (793, 18472), (794, 18468),
   (795, 18328), (796, 18502), (797, 18000), (798, 17722), (799, 17818), (800, 18204),
   (801, 18244), (802, 17386), (803, 17602), (804, 17550), (805, 17636), (806, 17592),
   (807, 17086), (808, 17094), (809, 17014), (810, 17158), (811, 17112), (812, 16612),
   (813, 16802), (814, 16538), (815, 16438), (816, 16096), (817, 16448), (818, 16590),
   (819, 15960), (820, 16140), (821, 16238), (822, 15868), (823, 15908), (824, 15652),
   (825, 15860), (826, 15488), (827, 15920), (828, 15756), (829, 15044), (830, 15286),
   (831, 14978), (832, 15148), (833, 14820), (834, 14754), (835, 14662), (836, 14454),
   (837, 14260), (838, 14712), (839, 14518), (840, 14108), (841, 14114), (842, 14168),
   (843, 14156), (844, 13964), (845, 14198), (846, 13648), (847, 13496), (848, 13776),
   (849, 13594), (850, 13488), (851, 13106), (852, 13378), (853, 12966), (854, 13110),
   (855, 12946), (856, 13048), (857, 12858), (858, 12650), (859, 12500), (860, 12422),
   (861, 12660), (862, 12276), (863, 12432), (864, 12162), (865, 12328), (866, 11848),
   (867, 11910), (868, 11946), (869, 11920), (870, 12144), (871, 11656), (872, 11602),
   (873, 11588), (874, 11676), (875, 11474), (876, 11622), (877, 11552), (878, 11204),
   (879, 11458), (880, 11074), (881, 11150), (882, 11134), (883, 11014), (884, 10780),
   (885, 10572), (886, 10590), (887, 10536), (888, 10346), (889, 10512), (890, 10188),
   (891, 10164), (892, 10274), (893, 9928), (894, 10054), (895, 10010), (896, 9712),
   (897, 9660), (898, 9964), (899, 9732), (900, 9656), (901, 9260), (902, 9296),
   (903, 9504), (904, 9300), (905, 9128), (906, 9030), (907, 9200), (908, 8990),
   (909, 9086), (910, 8586), (911, 8810), (912, 8818), (913, 8694), (914, 8402),
   (915, 8382), (916, 8518), (917, 8194), (918, 8164), (919, 7966), (920, 7992),
   (921, 8044), (922, 7814), (923, 7982), (924, 7852), (925, 8008), (926, 7938),
   (927, 7574), (928, 7734), (929, 7608), (930, 7506), (931, 7372), (932, 7350),
   (933, 7368), (934, 7484), (935, 7262), (936, 7204), (937, 7302), (938, 6984),
   (939, 6976), (940, 7064), (941, 7078), (942, 6998), (943, 6902), (944, 6968),
   (945, 6648), (946, 6636), (947, 6536), (948, 6266), (949, 6572), (950, 6452),
   (951, 6264), (952, 6142), (953, 6192), (954, 6182), (955, 6038), (956, 6128),
   (957, 5792), (958, 5958), (959, 5760), (960, 5850), (961, 5672), (962, 5722),
   (963, 5614), (964, 5644), (965, 5494), (966, 5578), (967, 5438), (968, 5460),
   (969, 5236), (970, 5342), (971, 5186), (972, 5254), (973, 5188), (974, 5076),
   (975, 5056), (976, 4828), (977, 5108), (978, 4974), (979, 4882), (980, 4948),
   (981, 4664), (982, 4942), (983, 4718), (984, 4688), (985, 4766), (986, 4492),
   (987, 4600), (988, 4522), (989, 4366), (990, 4606), (991, 4198), (992, 4238),
   (993, 4422), (994, 4368), (995, 4524), (996, 4292), (997, 4210), (998, 4348),
   (999, 4210), (1000, 4114)]

/-- The initial guess `guessParams` of `testRealKmerModelFit2`
(`0.9, 0.1, 700.0, 10.0`). -/
def realFit2Guess : List ℚ := [9 / 10, 1 / 10, 700, 10]

/-- Whether every entry of a list of numbers is below its successor. -/
def increasing : List ℕ → Bool
  | a :: b :: l => decide (a < b) && increasing (b :: l)
  | _ => true

/-! ## Instances of the density library -/

/-- A library that returns the same value `d` for every density. -/
def fixedBoost (d : ℚ) : Boost ℚ where
  normal := fun _ _ => some fun _ => some d
  poisson := fun _ => some fun _ => some d

/-- A library over `ℚ` whose densities are linear in the input:
`(lambda + k) / 4` stands in for the Poisson density and
`stddev * (1 + (x - mean))` for the normal density. -/
def linearBoost : Boost ℚ where
  normal := fun mean stddev => some fun x => some (stddev * (1 + (x - mean)))
  poisson := fun lambda => some fun k => some ((lambda + k) / 4)

/-- A library over `ℚ` for concrete runs: a rational bell curve stands in for
the normal density and a rational decreasing weight for the Poisson density.
It refuses a scale that is not positive, a negative rate and a negative
count. -/
def sampleBoost : Boost ℚ where
  normal := fun mean stddev =>
    if stddev ≤ 0 then none
    else some fun x => some (1 / (4 * stddev * (1 + ((x - mean) / stddev) ^ 2)))
  poisson := fun lambda =>
    if lambda < 0 then none
    else some fun k => if k < 0 then none else some (1 / (4 * (1 + lambda + k ^ 2)))

/-! ## The fitting engine `LevenbergMarquardt`

`LevenbergMarquardt.hh` and its implementation are not among the sources, so
the engine is modelled from the specification (§3, §4, §7). -/

/-- Modelled from the spec: the model-callback capability of the missing
`LevenbergMarquardt` engine, `evaluateModel(params, xs) -> result or
DomainError` (§4.1, §9); `none` is the domain error. -/
abbrev Callback (α : Type) := List α → List α → Option (List α)

/-- Modelled from the spec: the linear-algebra primitives of the missing
engine whose method the specification leaves open (§2): the linear solver,
`none` when the matrix is singular or the solve fails, matrix inversion for
the covariance, and the square root for the standard errors. -/
structure Numerics (α : Type) where
  solve : List (List α) → List α → Option (List α)
  invert : List (List α) → List (List α)
  sqrt : α → α

/-- Modelled from the spec: the constants of the missing engine that the
specification names without fixing (§4.2, §4.3): finite-difference fraction
`ε`, initial damping, damping factor, damping floor and upper bound,
relative-decrease and step-norm thresholds, maximum iteration count and the
number of consecutive rejected iterations that counts as "many". -/
structure Config (α : Type) where
  epsilon : α
  lambdaInit : α
  factor : α
  lambdaFloor : α
  lambdaMax : α
  tolerance : α
  stepTolerance : α
  maxIterations : Nat
  maxRejections : Nat

/-- Modelled from the spec: the state carried through the iteration of the
missing engine (§3, §9): current parameters, their residual vector and
objective, damping factor, iteration count and the number of consecutive
iterations without an accepted step. -/
structure IterState (α : Type) where
  params : List α
  residual : List α
  objective : α
  lambda : α
  iteration : Nat
  rejections : Nat
  deriving DecidableEq

/-- Modelled from the spec: the states of the missing engine's state machine
after `Initializing` (§4.3): `Iterating` and the three terminal states. -/
inductive Phase (α : Type) where
  | iterating (s : IterState α)
  | converged (s : IterState α)
  | maxIterationsExceeded (s : IterState α)
  | diverged (s : IterState α)
  deriving DecidableEq

/-- Modelled from the spec: the iteration state a phase of the missing
engine's state machine carries (§9). -/
def Phase.state {α : Type} : Phase α → IterState α
  | .iterating s => s
  | .converged s => s
  | .maxIterationsExceeded s => s
  | .diverged s => s

/-- Modelled from the spec: whether a phase of the missing engine's state
machine is one of the terminal states `Converged`, `MaxIterationsExceeded`,
`Diverged` (§4.3). -/
def Phase.isTerminal {α : Type} : Phase α → Bool
  | .iterating _ => false
  | _ => true

/-- Modelled from the spec: the Fit Result of the missing engine (§3):
estimated parameters, standard errors, chi-squared statistic. -/
structure FitResult (α : Type) where
  parameters : List α
  standardErrors : List α
  chiSquared : α
  deriving DecidableEq

/-- Modelled from the spec: the conditions under which the missing engine
fails at entry (§7): invalid degrees of freedom, inadmissible initial
guess. -/
inductive Failure where
  | invalidDegreesOfFreedom
  | domainError
  deriving DecidableEq, Repr

/-- Modelled from the spec: the caller-visible conditions `evaluate` of the
missing engine ends in (§4.3, §7): a Fit Result from `Converged`, the two
non-convergence outcomes carrying the best parameters found, and the two
entry failures. -/
inductive Outcome (α : Type) where
  | converged (r : FitResult α)
  | maxIterationsExceeded (best : List α)
  | diverged (best : List α)
  | invalidDegreesOfFreedom
  | domainError
  deriving DecidableEq

/-- Modelled from the spec: what a call of `evaluate` of the missing engine
did: its outcome and the number of iterations of the loop it performed. -/
structure Report (α : Type) where
  outcome : Outcome α
  iterations : Nat
  deriving DecidableEq

section Engine

variable {α : Type} [LinearOrderedField α]

/-- Modelled from the spec: inner product, a linear-algebra primitive of the
missing engine (§2). -/
def dot (u v : List α) : α := (List.zipWith (· * ·) u v).sum

/-- Modelled from the spec: the objective of the missing engine, the sum of
squared residuals (§1, §4.3). -/
def sumSquares (r : List α) : α := (r.map fun e => e * e).sum

/-- Modelled from the spec: the residual vector of the missing engine,
`residual[i] = y_observed[i] − model(params, x)[i]` (§3). -/
def residuals (ys pred : List α) : List α := List.zipWith (· - ·) ys pred

/-- Modelled from the spec: the trial parameters `params + Δp` of the missing
engine (§4.3 step 4). -/
def vadd (p dp : List α) : List α := List.zipWith (· + ·) p dp

/-- Modelled from the spec: the finite-difference step of the missing
Jacobian Estimator, `max(|params[j]| · ε, ε)` (§4.2). -/
def fdStep (eps pj : α) : α := max (|pj| * eps) eps

/-- Modelled from the spec: the parameter vector with `params[j]` moved by
`h`, as the missing Jacobian Estimator perturbs it (§4.2). -/
def perturbed (p : List α) (j : Nat) (h : α) : List α := p.modify (· + h) j

/-- Modelled from the spec: column `j` of the missing Jacobian Estimator
(§4.2): the forward difference `(model(perturbed) − model(params)) / step`;
when the perturbed point raises a domain error, the one-sided difference in
the opposite direction; `none` (Jacobian undefined) when both fail. -/
def jacobianColumn (f : Callback α) (eps : α) (p xs base : List α) (j : Nat) :
    Option (List α) :=
  let step := fdStep eps (p.getD j 0)
  match f (perturbed p j step) xs with
  | some fwd => some (List.zipWith (fun a b => (a - b) / step) fwd base)
  | none =>
    match f (perturbed p j (-step)) xs with
    | some bwd => some (List.zipWith (fun a b => (a - b) / step) base bwd)
    | none => none

/-- Modelled from the spec: the operation `jacobian(params, xs)` of the
missing Jacobian Estimator (§4.2), as the list of its columns; it evaluates
the model at `params` and at each perturbed vector. -/
def jacobian (f : Callback α) (eps : α) (p xs : List α) : Option (List (List α)) :=
  match f p xs with
  | none => none
  | some base => (List.range p.length).mapM (jacobianColumn f eps p xs base)

/-- Modelled from the spec: `JᵗJ` of the missing engine's normal equations
(§4.3 step 2), from the columns of `J`. -/
def gram (J : List (List α)) : List (List α) :=
  J.map fun cj => J.map fun ck => dot cj ck

/-- Modelled from the spec: `Jᵗr` of the missing engine's normal equations
(§4.3 step 2). -/
def gradient (J : List (List α)) (r : List α) : List α :=
  J.map fun cj => dot cj r

/-- Modelled from the spec: the damped matrix `A + λ·diag(A)` of the missing
engine's normal equations (§4.3 step 2). -/
def damped (A : List (List α)) (lam : α) : List (List α) :=
  A.enum.map fun jr => jr.2.enum.map fun ka =>
    if jr.1 = ka.1 then ka.2 + lam * ka.2 else ka.2

/-- Modelled from the spec: step 6 of the missing engine's iteration after a
rejected trial (§4.3 steps 3–6): `λ ← λ × factor` with the parameters kept;
then `MaxIterationsExceeded` when the iteration count exceeds the maximum,
`Diverged` when `λ` exceeds its upper bound after many consecutive
iterations without an accepted step, otherwise `Iterating`. -/
def judgeRejected (cfg : Config α) (s : IterState α) : Phase α :=
  let s' : IterState α :=
    { s with lambda := s.lambda * cfg.factor
             iteration := s.iteration + 1
             rejections := s.rejections + 1 }
  if cfg.maxIterations < s'.iteration then .maxIterationsExceeded s'
  else if cfg.lambdaMax < s'.lambda ∧ cfg.maxRejections ≤ s'.rejections then .diverged s'
  else .iterating s'

/-- Modelled from the spec: steps 5–6 of the missing engine's iteration after
an accepted trial (§4.3): `params ← params'`, `λ ← λ / factor` clamped to
the floor; `Converged` when the relative decrease of the objective is below
the threshold or the step norm is negligible relative to the parameter
magnitudes (compared through the squared norms), `MaxIterationsExceeded` when
the iteration count exceeds the maximum, otherwise `Iterating`. -/
def judgeAccepted (cfg : Config α) (s : IterState α) (p' r' : List α) (obj' : α)
    (dp : List α) : Phase α :=
  let s' : IterState α :=
    { params := p'
      residual := r'
      objective := obj'
      lambda := max (s.lambda / cfg.factor) cfg.lambdaFloor
      iteration := s.iteration + 1
      rejections := 0 }
  if (s.objective - obj') / s.objective < cfg.tolerance
      ∨ sumSquares dp < cfg.stepTolerance ^ 2 * sumSquares p' then .converged s'
  else if cfg.maxIterations < s'.iteration then .maxIterationsExceeded s'
  else .iterating s'

/-- Modelled from the spec: one pass through steps 1–6 of the `Iterating`
state of the missing engine (§4.3).  An undefined Jacobian is the fatal
iteration failure of §4.2; as §4.3 and §7 admit no outcome besides the three
terminal states, it ends the run in `Diverged`. -/
def lmStep (cfg : Config α) (num : Numerics α) (f : Callback α) (xs ys : List α)
    (s : IterState α) : Phase α :=
  match jacobian f cfg.epsilon s.params xs with
  | none => .diverged { s with iteration := s.iteration + 1 }
  | some J =>
    match num.solve (damped (gram J) s.lambda) (gradient J s.residual) with
    | none => judgeRejected cfg s
    | some dp =>
      let p' := vadd s.params dp
      match f p' xs with
      | none => judgeRejected cfg s
      | some pred =>
        let r' := residuals ys pred
        let obj' := sumSquares r'
        if obj' < s.objective then judgeAccepted cfg s p' r' obj' dp
        else judgeRejected cfg s

/-- Modelled from the spec: the `Initializing` state of the missing engine
(§4.3, §7): fail with invalid degrees of freedom when `N ≤ P`; otherwise
evaluate the model at the initial guess, failing with the domain error when
it is inadmissible; otherwise the first iteration state with the initial
residuals, objective and damping.  §4.3 words the validation as `P ≤ N`;
§3, §6, §7 and §8 ask for `N − P ≥ 1` and name `N ≤ P` as the failure, which
is the check taken here (it rejects the empty data set as well). -/
def enter (cfg : Config α) (f : Callback α) (p0 : List α) (data : List (α × α)) :
    Except Failure (IterState α) :=
  if data.length ≤ p0.length then .error .invalidDegreesOfFreedom
  else
    match f p0 (data.map Prod.fst) with
    | none => .error .domainError
    | some pred =>
      let r := residuals (data.map Prod.snd) pred
      .ok { params := p0
            residual := r
            objective := sumSquares r
            lambda := cfg.lambdaInit
            iteration := 0
            rejections := 0 }

/-- Modelled from the spec: at most `n` passes of the missing engine's
iteration from a phase; a terminal state stays as it is (§4.3). -/
def run (cfg : Config α) (num : Numerics α) (f : Callback α) (xs ys : List α) :
    Nat → Phase α → Phase α
  | 0, ph => ph
  | n + 1, .iterating s => run cfg num f xs ys n (lmStep cfg num f xs ys s)
  | _ + 1, ph => ph

/-- Modelled from the spec: the Covariance/Statistics Extractor of the
missing engine (§4.4): recompute `J` at the final parameters, invert `JᵗJ`,
scale by the reduced chi-squared `objective / (N − P)`, take the square
roots of the diagonal; the chi-squared reported is the final objective.
`none` when the Jacobian is undefined at the final parameters. -/
def extract (cfg : Config α) (num : Numerics α) (f : Callback α) (xs : List α)
    (s : IterState α) : Option (FitResult α) :=
  match jacobian f cfg.epsilon s.params xs with
  | none => none
  | some J =>
    let reduced := s.objective / ((xs.length : α) - (s.params.length : α))
    let cov := (num.invert (gram J)).map fun row => row.map fun c => reduced * c
    some { parameters := s.params
           standardErrors :=
             (List.range s.params.length).map fun j => num.sqrt ((cov.getD j []).getD j 0)
           chiSquared := s.objective }

/-- Modelled from the spec: the outcome the missing engine reports for a
terminal state (§4.3, §7): only `Converged` feeds the extractor; the other
terminal states carry the best parameters found.  An extractor that cannot
form the Jacobian is the fatal failure of §4.2 and is reported as
`Diverged`.  `none` for a phase that is not terminal. -/
def report (cfg : Config α) (num : Numerics α) (f : Callback α) (xs : List α) :
    Phase α → Option (Report α)
  | .iterating _ => none
  | .converged s =>
    match extract cfg num f xs s with
    | some r => some ⟨.converged r, s.iteration⟩
    | none => some ⟨.diverged s.params, s.iteration⟩
  | .maxIterationsExceeded s => some ⟨.maxIterationsExceeded s.params, s.iteration⟩
  | .diverged s => some ⟨.diverged s.params, s.iteration⟩

/-- Modelled from the spec: the operation `evaluate` of the missing engine
(§2, §6) on the constructor arguments {model callback, initial parameter
vector, data set}: `Initializing`, then the iteration until a terminal
state, then the report.  The loop is given `maxIterations + 1` passes; `none`
would mean they did not reach a terminal state. -/
def evaluate (cfg : Config α) (num : Numerics α) (f : Callback α) (p0 : List α)
    (data : List (α × α)) : Option (Report α) :=
  match enter cfg f p0 data with
  | .error .invalidDegreesOfFreedom => some ⟨.invalidDegreesOfFreedom, 0⟩
  | .error .domainError => some ⟨.domainError, 0⟩
  | .ok s0 =>
    report cfg num f (data.map Prod.fst)
      (run cfg num f (data.map Prod.fst) (data.map Prod.snd) (cfg.maxIterations + 1)
        (.iterating s0))

/-- Modelled from the spec: the sum of squared residuals of the data at a
parameter vector, `Σ (y_observed[i] − model(params, x)[i])²` (§3); `none`
when the model raises a domain error there. -/
def objectiveAt (f : Callback α) (data : List (α × α)) (p : List α) : Option α :=
  (f p (data.map Prod.fst)).map fun pred =>
    (List.zipWith (fun y m => (y - m) ^ 2) (data.map Prod.snd) pred).sum

/-- Modelled from the spec: the relation the missing engine keeps between
the parts of its iteration state (§3): the model accepts the current
parameters, and the stored residual vector and objective are the ones of the
data at these parameters. -/
def Coherent (f : Callback α) (xs ys : List α) (s : IterState α) : Prop :=
  ∃ pred, f s.params xs = some pred ∧ s.residual = residuals ys pred
    ∧ s.objective = sumSquares (residuals ys pred)

end Engine

/-! ## A concrete instance over `ℚ` -/

/-- A one-parameter model callback over `ℚ`: the line `y = a·x` through the
origin, admissible for `a ≥ 0`. -/
def lineModel : Callback ℚ := fun p xs =>
  match p with
  | [a] => if a < 0 then none else some (xs.map fun x => a * x)
  | _ => none

/-- Exact linear algebra for one parameter: the `1 × 1` solve and inverse;
the identity stands in for the square root. -/
def scalarNumerics : Numerics ℚ where
  solve := fun A b =>
    match A, b with
    | [[a]], [c] => if a = 0 then none else some [c / a]
    | _, _ => none
  invert := fun A =>
    match A with
    | [[a]] => [[1 / a]]
    | _ => A
  sqrt := fun x => x

/-- Engine constants of the usual magnitudes: `ε = 10⁻⁶`, initial damping
`10⁻³`, factor `10`, thresholds `10⁻⁶`, at most `100` iterations. -/
def sampleConfig : Config ℚ where
  epsilon := 1 / 1000000
  lambdaInit := 1 / 1000
  factor := 10
  lambdaFloor := 1 / 10000000000
  lambdaMax := 10000000000
  tolerance := 1 / 1000000
  stepTolerance := 1 / 1000000
  maxIterations := 100
  maxRejections := 5

/-! ## Theorems: the model callbacks -/

section CallbackTheorems

variable {α : Type} [LinearOrderedField α]

theorem liftLib_bind_ne_domainError {β γ : Type} (o : Option β) (k : β → Except Exn γ)
    (hk : ∀ b, k b ≠ .error .DomainError) :
    (liftLib o >>= k) ≠ .error .DomainError := by
  cases o with
  | none => simp [liftLib, bind, Except.bind]
  | some b => simpa [liftLib, bind, Except.bind] using hk b

theorem mapM_ne_domainError {β γ : Type} (g : β → Except Exn γ)
    (hg : ∀ b, g b ≠ .error .DomainError) (l : List β) :
    l.mapM g ≠ .error .DomainError := by
  induction l with
  | nil =>
    rw [List.mapM_nil]
    intro h
    cases h
  | cons b t ih =>
    rw [List.mapM_cons]
    cases hb : g b with
    | error e =>
      have hne := hg b
      rw [hb] at hne
      simpa [bind, Except.bind] using hne
    | ok c =>
      cases ht : t.mapM g with
      | error e =>
        rw [ht] at ih
        simpa [bind, Except.bind] using ih
      | ok cs => simp [bind, Except.bind, pure, Except.pure]

theorem pure_ne_domainError {β : Type} (b : β) :
    (pure b : Except Exn β) ≠ .error .DomainError := by
  intro h
  cases h

/-- C6: `gaussian` raises `LevenbergMarquardt::DomainError` if and only if
its third parameter `stddev` is strictly negative.  This holds for every
behaviour of the density library, so the check precedes every density
evaluation, and for every `w`, `mean`, further parameters and inputs; in
particular `stddev = 0` raises no `DomainError`. -/
theorem gaussian_domainError_iff (B : Boost α) (w mean stddev : α) (rest pX : List α) :
    gaussian B (w :: mean :: stddev :: rest) pX = .error .DomainError ↔ stddev < 0 := by
  constructor
  · intro h
    by_contra hn
    revert h
    simp only [gaussian, if_neg hn]
    apply liftLib_bind_ne_domainError
    intro normDist
    apply mapM_ne_domainError
    intro x
    apply liftLib_bind_ne_domainError
    intro d
    exact pure_ne_domainError _
  · intro h
    simp only [gaussian, if_pos h]

/-- C7: `kmerModel` raises `LevenbergMarquardt::DomainError` if and only if
`stddev` (fourth parameter) is strictly negative or `lambda` (second
parameter) is strictly negative.  This holds for every behaviour of the
density library, so the check precedes every density evaluation, and for
every `mix`, `mean`, further parameters and inputs. -/
theorem kmerModel_domainError_iff (B : Boost α) (mix lambda mean stddev : α)
    (rest pX : List α) :
    kmerModel B (mix :: lambda :: mean :: stddev :: rest) pX = .error .DomainError
      ↔ (stddev < 0 ∨ lambda < 0) := by
  constructor
  · intro h
    by_contra hn
    revert h
    simp only [kmerModel, if_neg hn]
    apply liftLib_bind_ne_domainError
    intro poissDist
    apply liftLib_bind_ne_domainError
    intro normDist
    apply liftLib_bind_ne_domainError
    intro p0
    apply liftLib_bind_ne_domainError
    intro n0
    apply liftLib_bind_ne_domainError
    intro p1
    apply liftLib_bind_ne_domainError
    intro n1
    apply mapM_ne_domainError
    intro x
    apply liftLib_bind_ne_domainError
    intro p
    apply liftLib_bind_ne_domainError
    intro n
    exact pure_ne_domainError _
  · intro h
    simp only [kmerModel, if_pos h]

theorem mapM_ok_of_forall {β γ : Type} (g : β → Except Exn γ) (h : β → γ) (l : List β)
    (hl : ∀ x ∈ l, g x = .ok (h x)) : l.mapM g = .ok (l.map h) := by
  induction l with
  | nil =>
    rw [List.mapM_nil]
    rfl
  | cons b t ih =>
    rw [List.mapM_cons, hl b (List.mem_cons_self b t),
      ih fun x hx => hl x (List.mem_cons_of_mem b hx)]
    rfl

theorem mapM_ok_inv {β γ : Type} (g : β → Except Exn γ) (l : List β) (ys : List γ)
    (h : l.mapM g = .ok ys) : ys.length = l.length ∧ ∀ x ∈ l, ∃ y, g x = .ok y := by
  induction l generalizing ys with
  | nil =>
    rw [List.mapM_nil] at h
    cases h
    exact ⟨rfl, fun x hx => absurd hx (List.not_mem_nil x)⟩
  | cons b t ih =>
    rw [List.mapM_cons] at h
    cases hb : g b with
    | error e =>
      rw [hb] at h
      cases h
    | ok c =>
      cases ht : t.mapM g with
      | error e =>
        rw [hb, ht] at h
        cases h
      | ok cs =>
        rw [hb, ht] at h
        cases h
        obtain ⟨hlen, hmem⟩ := ih cs ht
        refine ⟨by simp [hlen], ?_⟩
        intro x hx
        rcases List.mem_cons.mp hx with rfl | hx'
        · exact ⟨c, hb⟩
        · exact hmem x hx'

theorem liftLib_bind_ok {β γ : Type} (o : Option β) (k : β → Except Exn γ) (c : γ)
    (h : (liftLib o >>= k) = .ok c) : ∃ b, o = some b ∧ k b = .ok c := by
  cases o with
  | none => cases h
  | some b => exact ⟨b, rfl, h⟩

theorem liftLib_some_bind {β γ : Type} (b : β) (k : β → Except Exn γ) :
    (liftLib (some b) >>= k) = k b := rfl

/-- The value of `gaussian` when the library returns: `w` times the density
at each input. -/
theorem gaussian_eq_ok (B : Boost α) (w mean stddev : α) (rest pX : List α)
    (d : α → Option α) (pdf : α → α) (hdom : ¬ stddev < 0)
    (hB : B.normal mean stddev = some d) (hd : ∀ x ∈ pX, d x = some (pdf x)) :
    gaussian B (w :: mean :: stddev :: rest) pX = .ok (pX.map fun x => w * pdf x) := by
  simp only [gaussian, if_neg hdom, hB, liftLib_some_bind]
  apply mapM_ok_of_forall
  intro x hx
  rw [hd x hx, liftLib_some_bind]
  rfl

/-- When `gaussian` returns, the domain check passed and the library
returned the distribution and its density at every input. -/
theorem gaussian_ok_inv (B : Boost α) (w mean stddev : α) (rest pX ys : List α)
    (h : gaussian B (w :: mean :: stddev :: rest) pX = .ok ys) :
    ¬ stddev < 0 ∧ ∃ d, B.normal mean stddev = some d ∧ ∀ x ∈ pX, ∃ v, d x = some v := by
  by_cases hdom : stddev < 0
  · simp [gaussian, if_pos hdom] at h
  · refine ⟨hdom, ?_⟩
    simp only [gaussian, if_neg hdom] at h
    obtain ⟨d, hB, hm⟩ := liftLib_bind_ok _ _ _ h
    refine ⟨d, hB, ?_⟩
    intro x hx
    obtain ⟨y, hy⟩ := (mapM_ok_inv _ _ _ hm).2 x hx
    obtain ⟨v, hv, _⟩ := liftLib_bind_ok _ _ _ hy
    exact ⟨v, hv⟩

/-- The value of `kmerModel` when the library returns: the mixture at each
input times `1000 / (1 - massAtZero - massAtOne)`. -/
theorem kmerModel_eq_ok (B : Boost α) (mix lambda mean stddev : α) (rest pX : List α)
    (pd nd : α → Option α) (ppdf npdf : α → α) (hdom : ¬ (stddev < 0 ∨ lambda < 0))
    (hP : B.poisson lambda = some pd) (hN : B.normal mean stddev = some nd)
    (hp : ∀ x ∈ 0 :: 1 :: pX, pd x = some (ppdf x))
    (hn : ∀ x ∈ 0 :: 1 :: pX, nd x = some (npdf x)) :
    kmerModel B (mix :: lambda :: mean :: stddev :: rest) pX
      = .ok (pX.map fun x =>
          1000 / (1 - (mix * ppdf 0 + (1 - mix) * npdf 0)
                    - (mix * ppdf 1 + (1 - mix) * npdf 1))
            * (mix * ppdf x + (1 - mix) * npdf x)) := by
  have h0 : (0 : α) ∈ 0 :: 1 :: pX := List.mem_cons_self _ _
  have h1 : (1 : α) ∈ 0 :: 1 :: pX := List.mem_cons_of_mem _ (List.mem_cons_self _ _)
  simp only [kmerModel, if_neg hdom, hP, hN, hp 0 h0, hn 0 h0, hp 1 h1, hn 1 h1,
    liftLib_some_bind]
  apply mapM_ok_of_forall
  intro x hx
  have hx' : x ∈ 0 :: 1 :: pX := List.mem_cons_of_mem _ (List.mem_cons_of_mem _ hx)
  rw [hp x hx', hn x hx', liftLib_some_bind, liftLib_some_bind]
  rfl

/-- When `kmerModel` returns, the domain check passed and the library
returned both distributions and their densities at `0`, at `1` and at every
input. -/
theorem kmerModel_ok_inv (B : Boost α) (mix lambda mean stddev : α) (rest pX ys : List α)
    (h : kmerModel B (mix :: lambda :: mean :: stddev :: rest) pX = .ok ys) :
    ¬ (stddev < 0 ∨ lambda < 0) ∧ ∃ pd nd, B.poisson lambda = some pd
      ∧ B.normal mean stddev = some nd
      ∧ (∀ x ∈ 0 :: 1 :: pX, ∃ v, pd x = some v)
      ∧ (∀ x ∈ 0 :: 1 :: pX, ∃ v, nd x = some v) := by
  by_cases hdom : stddev < 0 ∨ lambda < 0
  · simp [kmerModel, if_pos hdom] at h
  · refine ⟨hdom, ?_⟩
    simp only [kmerModel, if_neg hdom] at h
    obtain ⟨pd, hP, h⟩ := liftLib_bind_ok _ _ _ h
    obtain ⟨nd, hN, h⟩ := liftLib_bind_ok _ _ _ h
    obtain ⟨p0, hp0, h⟩ := liftLib_bind_ok _ _ _ h
    obtain ⟨n0, hn0, h⟩ := liftLib_bind_ok _ _ _ h
    obtain ⟨p1, hp1, h⟩ := liftLib_bind_ok _ _ _ h
    obtain ⟨n1, hn1, h⟩ := liftLib_bind_ok _ _ _ h
    have hm := (mapM_ok_inv _ _ _ h).2
    refine ⟨pd, nd, hP, hN, ?_, ?_⟩
    · intro x hx
      rcases List.mem_cons.mp hx with rfl | hx
      · exact ⟨p0, hp0⟩
      rcases List.mem_cons.mp hx with rfl | hx
      · exact ⟨p1, hp1⟩
      obtain ⟨y, hy⟩ := hm x hx
      obtain ⟨v, hv, _⟩ := liftLib_bind_ok _ _ _ hy
      exact ⟨v, hv⟩
    · intro x hx
      rcases List.mem_cons.mp hx with rfl | hx
      · exact ⟨n0, hn0⟩
      rcases List.mem_cons.mp hx with rfl | hx
      · exact ⟨n1, hn1⟩
      obtain ⟨y, hy⟩ := hm x hx
      obtain ⟨_, _, hy⟩ := liftLib_bind_ok _ _ _ hy
      obtain ⟨v, hv, _⟩ := liftLib_bind_ok _ _ _ hy
      exact ⟨v, hv⟩

theorem some_getD_of_exists (d : α → Option α) (l : List α)
    (h : ∀ x ∈ l, ∃ v, d x = some v) : ∀ x ∈ l, d x = some ((d x).getD 0) := by
  intro x hx
  obtain ⟨v, hv⟩ := h x hx
  simp [hv]

/-- The value of `kmerModel` when the library returns, through `mixture`. -/
theorem kmerModel_eq_mixture (B : Boost α) (mix lambda mean stddev : α) (rest pX : List α)
    (pd nd : α → Option α) (ppdf npdf : α → α) (hdom : ¬ (stddev < 0 ∨ lambda < 0))
    (hP : B.poisson lambda = some pd) (hN : B.normal mean stddev = some nd)
    (hp : ∀ x ∈ 0 :: 1 :: pX, pd x = some (ppdf x))
    (hn : ∀ x ∈ 0 :: 1 :: pX, nd x = some (npdf x)) :
    kmerModel B (mix :: lambda :: mean :: stddev :: rest) pX
      = .ok (pX.map fun x =>
          1000 / (1 - mixture mix ppdf npdf 0 - mixture mix ppdf npdf 1)
            * mixture mix ppdf npdf x) :=
  kmerModel_eq_ok B mix lambda mean stddev rest pX pd nd ppdf npdf hdom hP hN hp hn

/-- C16: both callbacks are pointwise: for fixed parameters there is a
function `g` of one input, fixed by the parameters and the library, such
that whenever the callback returns `ys` on `xs`, `ys` is `g` applied to each
`xs[i]`, and on every permutation of `xs` it returns `g` applied to the
permuted inputs, the same permutation of `ys`.  They are deterministic: equal
arguments give equal results. -/
theorem callbacks_pointwise (B : Boost α) :
    (∀ w mean stddev rest, ∃ g : α → α, ∀ pX ys,
        gaussian B (w :: mean :: stddev :: rest) pX = .ok ys →
          ys = pX.map g
            ∧ ∀ pX', pX.Perm pX' →
                gaussian B (w :: mean :: stddev :: rest) pX' = .ok (pX'.map g)
                  ∧ ys.Perm (pX'.map g))
      ∧ (∀ mix lambda mean stddev rest, ∃ g : α → α, ∀ pX ys,
        kmerModel B (mix :: lambda :: mean :: stddev :: rest) pX = .ok ys →
          ys = pX.map g
            ∧ ∀ pX', pX.Perm pX' →
                kmerModel B (mix :: lambda :: mean :: stddev :: rest) pX' = .ok (pX'.map g)
                  ∧ ys.Perm (pX'.map g))
      ∧ (∀ p p' pX pX', p = p' → pX = pX' →
          gaussian B p pX = gaussian B p' pX' ∧ kmerModel B p pX = kmerModel B p' pX') := by
  refine ⟨?_, ?_, ?_⟩
  · intro w mean stddev rest
    refine ⟨fun x => w * (((B.normal mean stddev).bind fun d => d x).getD 0), ?_⟩
    intro pX ys h
    obtain ⟨hdom, d, hB, hd⟩ := gaussian_ok_inv B w mean stddev rest pX ys h
    have hg : (fun x => w * (((B.normal mean stddev).bind fun d => d x).getD 0))
        = fun x => w * (d x).getD 0 := by
      funext x
      simp [hB]
    rw [hg]
    have hys : ys = pX.map fun x => w * (d x).getD 0 := by
      have h' := gaussian_eq_ok B w mean stddev rest pX d _ hdom hB
        (some_getD_of_exists d pX hd)
      rw [h] at h'
      exact Except.ok.inj h'
    refine ⟨hys, ?_⟩
    intro pX' hperm
    refine ⟨gaussian_eq_ok B w mean stddev rest pX' d _ hdom hB
      (some_getD_of_exists d pX' fun x hx => hd x (hperm.mem_iff.mpr hx)), ?_⟩
    rw [hys]
    exact hperm.map _
  · intro mix lambda mean stddev rest
    refine ⟨fun x =>
      1000 / (1 - mixture mix (fun x => ((B.poisson lambda).bind fun d => d x).getD 0)
                    (fun x => ((B.normal mean stddev).bind fun d => d x).getD 0) 0
                - mixture mix (fun x => ((B.poisson lambda).bind fun d => d x).getD 0)
                    (fun x => ((B.normal mean stddev).bind fun d => d x).getD 0) 1)
        * mixture mix (fun x => ((B.poisson lambda).bind fun d => d x).getD 0)
            (fun x => ((B.normal mean stddev).bind fun d => d x).getD 0) x, ?_⟩
    intro pX ys h
    obtain ⟨hdom, pd, nd, hP, hN, hp, hn⟩ :=
      kmerModel_ok_inv B mix lambda mean stddev rest pX ys h
    have hgp : (fun x => ((B.poisson lambda).bind fun d => d x).getD 0)
        = fun x => (pd x).getD 0 := by
      funext x
      simp [hP]
    have hgn : (fun x => ((B.normal mean stddev).bind fun d => d x).getD 0)
        = fun x => (nd x).getD 0 := by
      funext x
      simp [hN]
    rw [hgp, hgn]
    have hys := kmerModel_eq_mixture B mix lambda mean stddev rest pX pd nd _ _ hdom hP hN
      (some_getD_of_exists pd _ hp) (some_getD_of_exists nd _ hn)
    rw [h] at hys
    have hys' := Except.ok.inj hys
    refine ⟨hys', ?_⟩
    intro pX' hperm
    have hmem : ∀ x ∈ 0 :: 1 :: pX', x ∈ 0 :: 1 :: pX := by
      intro x hx
      rcases List.mem_cons.mp hx with rfl | hx
      · exact List.mem_cons_self _ _
      rcases List.mem_cons.mp hx with rfl | hx
      · exact List.mem_cons_of_mem _ (List.mem_cons_self _ _)
      exact List.mem_cons_of_mem _ (List.mem_cons_of_mem _ (hperm.mem_iff.mpr hx))
    refine ⟨kmerModel_eq_mixture B mix lambda mean stddev rest pX' pd nd _ _ hdom hP hN
      (some_getD_of_exists pd _ fun x hx => hp x (hmem x hx))
      (some_getD_of_exists nd _ fun x hx => hn x (hmem x hx)), ?_⟩
    rw [hys']
    exact hperm.map _
  · intro p p' pX pX' hp hx
    subst hp
    subst hx
    exact ⟨rfl, rfl⟩

theorem gaussian_ne_domainError (B : Boost α) (w mean stddev : α) (rest pX : List α)
    (hdom : ¬ stddev < 0) :
    gaussian B (w :: mean :: stddev :: rest) pX ≠ .error .DomainError := by
  simp only [gaussian, if_neg hdom]
  apply liftLib_bind_ne_domainError
  intro normDist
  apply mapM_ne_domainError
  intro x
  apply liftLib_bind_ne_domainError
  intro d
  exact pure_ne_domainError _

theorem kmerModel_ne_domainError (B : Boost α) (mix lambda mean stddev : α)
    (rest pX : List α) (hdom : ¬ (stddev < 0 ∨ lambda < 0)) :
    kmerModel B (mix :: lambda :: mean :: stddev :: rest) pX ≠ .error .DomainError := by
  simp only [kmerModel, if_neg hdom]
  repeat
    apply liftLib_bind_ne_domainError
    intro _
  apply mapM_ne_domainError
  intro x
  repeat
    apply liftLib_bind_ne_domainError
    intro _
  exact pure_ne_domainError _
end CallbackTheorems

/-! ## Theorems: the callbacks with rounded operations -/

section RoundedTheorems

variable {α : Type} [LinearOrderedField α]

/-- With no rounding the rounded callbacks are the exact ones. -/
theorem rounded_id (B : Boost α) (p pX : List α) :
    gaussianRounded (fun q => q) B p pX = gaussian B p pX
      ∧ kmerModelRounded (fun q => q) B p pX = kmerModel B p pX :=
  ⟨rfl, rfl⟩

/-- The value of `gaussianRounded` when the library returns: the rounded
product of `w` and the density at each input. -/
theorem gaussianRounded_eq_ok (fl : α → α) (B : Boost α) (w mean stddev : α)
    (rest pX : List α) (d : α → Option α) (pdf : α → α) (hdom : ¬ stddev < 0)
    (hB : B.normal mean stddev = some d) (hd : ∀ x ∈ pX, d x = some (pdf x)) :
    gaussianRounded fl B (w :: mean :: stddev :: rest) pX
      = .ok (pX.map fun x => fl (w * pdf x)) := by
  simp only [gaussianRounded, if_neg hdom, hB, liftLib_some_bind]
  apply mapM_ok_of_forall
  intro x hx
  rw [hd x hx, liftLib_some_bind]
  rfl

/-- The value of `kmerModelRounded` when the library returns: the rounded
mixture at each input times the rounded scale, rounded. -/
theorem kmerModelRounded_eq_ok (fl : α → α) (B : Boost α) (mix lambda mean stddev : α)
    (rest pX : List α) (pd nd : α → Option α) (ppdf npdf : α → α)
    (hdom : ¬ (stddev < 0 ∨ lambda < 0))
    (hP : B.poisson lambda = some pd) (hN : B.normal mean stddev = some nd)
    (hp : ∀ x ∈ 0 :: 1 :: pX, pd x = some (ppdf x))
    (hn : ∀ x ∈ 0 :: 1 :: pX, nd x = some (npdf x)) :
    kmerModelRounded fl B (mix :: lambda :: mean :: stddev :: rest) pX
      = .ok (pX.map fun x =>
          fl (fl (1000 / fl (fl (1 - mixtureRounded fl mix ppdf npdf 0)
                    - mixtureRounded fl mix ppdf npdf 1))
            * mixtureRounded fl mix ppdf npdf x)) := by
  have h0 : (0 : α) ∈ 0 :: 1 :: pX := List.mem_cons_self _ _
  have h1 : (1 : α) ∈ 0 :: 1 :: pX := List.mem_cons_of_mem _ (List.mem_cons_self _ _)
  simp only [kmerModelRounded, if_neg hdom, hP, hN, hp 0 h0, hn 0 h0, hp 1 h1, hn 1 h1,
    liftLib_some_bind]
  apply mapM_ok_of_forall
  intro x hx
  have hx' : x ∈ 0 :: 1 :: pX := List.mem_cons_of_mem _ (List.mem_cons_of_mem _ hx)
  rw [hp x hx', hn x hx', liftLib_some_bind, liftLib_some_bind]
  rfl

end RoundedTheorems

section RoundedClaims

variable {α : Type} [LinearOrderedField α]

/-- C12 (as amended): for a `stddev` that passes the domain check and that the
library accepts, returning the density `pdf` of `normal(mean, stddev)` at the
inputs, and for a rounding `fl` with `fl 0 = 0`: `gaussian` returns `ys` with
`ys[i]` the rounded product `fl(w * pdf(xs[i]))` for every index `i`; `w = 0`
gives all zeros; with `c * w` in place of `w` it returns the rounded products
`fl(c * w * pdf(xs[i]))`, and these are `c * ys[i]` when no rounding
separates them, as in exact arithmetic. -/
theorem gaussianRounded_pointwise (fl : α → α) (B : Boost α) (w mean stddev c : α)
    (rest pX : List α) (d : α → Option α) (pdf : α → α) (hfl : fl 0 = 0)
    (hdom : ¬ stddev < 0) (hB : B.normal mean stddev = some d)
    (hd : ∀ x ∈ pX, d x = some (pdf x)) :
    ∃ ys, gaussianRounded fl B (w :: mean :: stddev :: rest) pX = .ok ys
      ∧ ys.length = pX.length
      ∧ (∀ (i : Nat) (hi : i < pX.length) (hj : i < ys.length), ys[i] = fl (w * pdf pX[i]))
      ∧ gaussianRounded fl B (0 :: mean :: stddev :: rest) pX = .ok (pX.map fun _ => 0)
      ∧ gaussianRounded fl B (c * w :: mean :: stddev :: rest) pX
          = .ok (pX.map fun x => fl (c * w * pdf x))
      ∧ ((∀ x ∈ pX, fl (c * w * pdf x) = c * fl (w * pdf x)) →
          gaussianRounded fl B (c * w :: mean :: stddev :: rest) pX
            = .ok (ys.map fun y => c * y)) := by
  refine ⟨_, gaussianRounded_eq_ok fl B w mean stddev rest pX d pdf hdom hB hd, by simp,
    ?_, ?_, gaussianRounded_eq_ok fl B (c * w) mean stddev rest pX d pdf hdom hB hd, ?_⟩
  · intro i hi hj
    simp
  · rw [gaussianRounded_eq_ok fl B 0 mean stddev rest pX d pdf hdom hB hd]
    simp [hfl]
  · intro hex
    rw [gaussianRounded_eq_ok fl B (c * w) mean stddev rest pX d pdf hdom hB hd,
      List.map_map]
    exact congrArg Except.ok (List.map_congr_left hex)

/-- C14 (as amended): writing `m(x) = mix*ppdf(x) + (1 - mix)*npdf(x)` for the
densities the library returns and `D = 1 - m(0) - m(1)`, for parameters that
pass the domain check `kmerModel` returns `ys` with `ys[i]` the product of
`scale = 1000 / D` and `m(xs[i])`, every operation rounded by `fl`.  When none
of these operations rounds at the inputs at hand, as in exact arithmetic, and
`D ≠ 0`, then `ys[i] = 1000*m(xs[i])/D` for every `i`, the outputs sum to
`1000 * (sum of m(xs[i])) / D`, and the sum is `1000` when the `m(xs[i])` sum
to `D`. -/
theorem kmerModelRounded_normalised (fl : α → α) (B : Boost α) (mix lambda mean stddev : α)
    (rest pX : List α) (pd nd : α → Option α) (ppdf npdf : α → α)
    (hdom : ¬ (stddev < 0 ∨ lambda < 0))
    (hP : B.poisson lambda = some pd) (hN : B.normal mean stddev = some nd)
    (hp : ∀ x ∈ 0 :: 1 :: pX, pd x = some (ppdf x))
    (hn : ∀ x ∈ 0 :: 1 :: pX, nd x = some (npdf x)) :
    ∃ ys, kmerModelRounded fl B (mix :: lambda :: mean :: stddev :: rest) pX = .ok ys
      ∧ ys.length = pX.length
      ∧ (∀ (i : Nat) (hi : i < pX.length) (hj : i < ys.length),
          ys[i] = fl (fl (1000 / fl (fl (1 - mixtureRounded fl mix ppdf npdf 0)
                            - mixtureRounded fl mix ppdf npdf 1))
                    * mixtureRounded fl mix ppdf npdf pX[i]))
      ∧ ((∀ x ∈ 0 :: 1 :: pX, mixtureRounded fl mix ppdf npdf x = mixture mix ppdf npdf x) →
          fl (fl (1 - mixture mix ppdf npdf 0) - mixture mix ppdf npdf 1)
            = 1 - mixture mix ppdf npdf 0 - mixture mix ppdf npdf 1 →
          fl (1000 / (1 - mixture mix ppdf npdf 0 - mixture mix ppdf npdf 1))
            = 1000 / (1 - mixture mix ppdf npdf 0 - mixture mix ppdf npdf 1) →
          (∀ x ∈ pX,
            fl (1000 / (1 - mixture mix ppdf npdf 0 - mixture mix ppdf npdf 1)
                  * mixture mix ppdf npdf x)
              = 1000 / (1 - mixture mix ppdf npdf 0 - mixture mix ppdf npdf 1)
                  * mixture mix ppdf npdf x) →
          1 - mixture mix ppdf npdf 0 - mixture mix ppdf npdf 1 ≠ 0 →
          (∀ (i : Nat) (hi : i < pX.length) (hj : i < ys.length),
              ys[i] = 1000 * mixture mix ppdf npdf pX[i]
                / (1 - mixture mix ppdf npdf 0 - mixture mix ppdf npdf 1))
            ∧ ys.sum = 1000 * (pX.map (mixture mix ppdf npdf)).sum
                / (1 - mixture mix ppdf npdf 0 - mixture mix ppdf npdf 1)
            ∧ ((pX.map (mixture mix ppdf npdf)).sum
                  = 1 - mixture mix ppdf npdf 0 - mixture mix ppdf npdf 1 →
                ys.sum = 1000)) := by
  refine ⟨_, kmerModelRounded_eq_ok fl B mix lambda mean stddev rest pX pd nd ppdf npdf
    hdom hP hN hp hn, by simp, ?_, ?_⟩
  · intro i hi hj
    simp
  · intro hm hD hs hy hne
    have h0 : (0 : α) ∈ 0 :: 1 :: pX := List.mem_cons_self _ _
    have h1 : (1 : α) ∈ 0 :: 1 :: pX := List.mem_cons_of_mem _ (List.mem_cons_self _ _)
    have hmap : (pX.map fun x =>
        fl (fl (1000 / fl (fl (1 - mixtureRounded fl mix ppdf npdf 0)
                  - mixtureRounded fl mix ppdf npdf 1))
          * mixtureRounded fl mix ppdf npdf x))
        = pX.map fun x =>
            1000 / (1 - mixture mix ppdf npdf 0 - mixture mix ppdf npdf 1)
              * mixture mix ppdf npdf x := by
      apply List.map_congr_left
      intro x hx
      rw [hm 0 h0, hm 1 h1,
        hm x (List.mem_cons_of_mem _ (List.mem_cons_of_mem _ hx)), hD, hs, hy x hx]
    have hsum : (pX.map fun x =>
        1000 / (1 - mixture mix ppdf npdf 0 - mixture mix ppdf npdf 1)
          * mixture mix ppdf npdf x).sum
        = 1000 * (pX.map (mixture mix ppdf npdf)).sum
            / (1 - mixture mix ppdf npdf 0 - mixture mix ppdf npdf 1) := by
      rw [List.sum_map_mul_left, div_mul_eq_mul_div]
    rw [hmap]
    refine ⟨?_, hsum, ?_⟩
    · intro i hi hj
      simp [div_mul_eq_mul_div]
    · intro hS
      rw [hsum, hS, mul_div_assoc, div_self hne, mul_one]

end RoundedClaims

/-! ## Theorems: the callbacks in double arithmetic -/

/-- Values of `roundDouble`: the doubles `0.1` and `1/3`; the ties `2^53 + 1`
and `2^53 + 3`, which go to the even significand; values that are doubles
already. -/
theorem roundDouble_samples :
    roundDouble (1 / 10) = 3602879701896397 / 36028797018963968
      ∧ roundDouble (1 / 3) = 6004799503160661 / 18014398509481984
      ∧ roundDouble 9007199254740993 = 9007199254740992
      ∧ roundDouble 9007199254740995 = 9007199254740996
      ∧ roundDouble (-5 / 2) = -5 / 2
      ∧ roundDouble 1000 = 1000 := by
  refine ⟨?_, ?_, ?_, ?_, ?_, ?_⟩ <;> decide!

/-- C12 (counterexample): with a library that returns the `double`
`d = 0.04807692307692307` (`1/20.8` in doubles), `gaussian` returns
`4.8076923076923075` for `w = 100` and `14.423076923076922` for `w = 3 * 100`;
this is neither `3` times the former nor the `double` product of `3` and the
former, which is `14.423076923076923`. -/
theorem gaussian_linearity_counterexample :
    roundDouble (866076851417403 / 18014398509481984)
        = 866076851417403 / 18014398509481984
      ∧ gaussianRounded roundDouble (fixedBoost (866076851417403 / 18014398509481984))
          [100, 10, 5] [9] = .ok [5412980321358769 / 1125899906842624]
      ∧ gaussianRounded roundDouble (fixedBoost (866076851417403 / 18014398509481984))
          [3 * 100, 10, 5] [9] = .ok [8119470482038153 / 562949953421312]
      ∧ (8119470482038153 / 562949953421312 : ℚ)
          ≠ 3 * (5412980321358769 / 1125899906842624)
      ∧ (8119470482038153 / 562949953421312 : ℚ)
          ≠ roundDouble (3 * (5412980321358769 / 1125899906842624)) := by
  refine ⟨by decide!, ?_, ?_, by decide!, by decide!⟩
  · rw [gaussianRounded_eq_ok roundDouble _ 100 10 5 [] [9]
      (fun _ => some (866076851417403 / 18014398509481984))
      (fun _ => 866076851417403 / 18014398509481984) (by norm_num) rfl (fun _ _ => rfl)]
    exact congrArg Except.ok (by decide!)
  · rw [gaussianRounded_eq_ok roundDouble _ (3 * 100) 10 5 [] [9]
      (fun _ => some (866076851417403 / 18014398509481984))
      (fun _ => 866076851417403 / 18014398509481984) (by norm_num) rfl (fun _ _ => rfl)]
    exact congrArg Except.ok (by decide!)

/-- C14 (counterexample): with the linear library and the parameters
`mix = 0.25`, `lambda = 0.5`, `mean = 0`, `stddev = 0.125`, all values up to
`D = 19/32` and `m(3) = 19/32` are exact, so the `m(xs[i])` of `xs = [3]` sum
to `D ≠ 0`; yet `scale = 1000 / D` rounds, and `kmerModel` returns
`999.9999999999999` at `x = 3`, not `1000` (and `736.8421052631578` at
`x = 2`). -/
theorem kmerModel_sum_counterexample :
    mixture (1 / 4) (fun k : ℚ => (1 / 2 + k) / 4) (fun x : ℚ => 1 / 8 * (1 + (x - 0))) 3
        = 1 - mixture (1 / 4) (fun k : ℚ => (1 / 2 + k) / 4)
              (fun x : ℚ => 1 / 8 * (1 + (x - 0))) 0
            - mixture (1 / 4) (fun k : ℚ => (1 / 2 + k) / 4)
              (fun x : ℚ => 1 / 8 * (1 + (x - 0))) 1
      ∧ mixture (1 / 4) (fun k : ℚ => (1 / 2 + k) / 4)
          (fun x : ℚ => 1 / 8 * (1 + (x - 0))) 3 = 19 / 32
      ∧ kmerModelRounded roundDouble linearBoost [1 / 4, 1 / 2, 0, 1 / 8] [3]
          = .ok [8796093022207999 / 8796093022208]
      ∧ ([8796093022207999 / 8796093022208] : List ℚ).sum ≠ 1000
      ∧ kmerModelRounded roundDouble linearBoost [1 / 4, 1 / 2, 0, 1 / 8] [2, 3]
          = .ok [6481331700574315 / 8796093022208, 8796093022207999 / 8796093022208] := by
  refine ⟨by norm_num [mixture], by norm_num [mixture], ?_, by decide!, ?_⟩
  · rw [kmerModelRounded_eq_ok roundDouble linearBoost (1 / 4) (1 / 2) 0 (1 / 8) [] [3]
      (fun k => some ((1 / 2 + k) / 4)) (fun x => some (1 / 8 * (1 + (x - 0))))
      (fun k => (1 / 2 + k) / 4) (fun x => 1 / 8 * (1 + (x - 0))) (by norm_num) rfl rfl
      (fun _ _ => rfl) (fun _ _ => rfl)]
    exact congrArg Except.ok (by decide!)
  · rw [kmerModelRounded_eq_ok roundDouble linearBoost (1 / 4) (1 / 2) 0 (1 / 8) [] [2, 3]
      (fun k => some ((1 / 2 + k) / 4)) (fun x => some (1 / 8 * (1 + (x - 0))))
      (fun k => (1 / 2 + k) / 4) (fun x => 1 / 8 * (1 + (x - 0))) (by norm_num) rfl rfl
      (fun _ _ => rfl) (fun _ _ => rfl)]
    exact congrArg Except.ok (by decide!)

/-! ## Theorems: the callbacks over the real densities -/

section EngineTheorems

variable {α : Type} [LinearOrderedField α]

theorem judgeRejected_state (cfg : Config α) (s : IterState α) :
    (judgeRejected cfg s).state =
      { s with lambda := s.lambda * cfg.factor
               iteration := s.iteration + 1
               rejections := s.rejections + 1 } := by
  unfold judgeRejected
  simp only
  split_ifs <;> rfl

theorem judgeAccepted_state (cfg : Config α) (s : IterState α) (p' r' : List α) (obj' : α)
    (dp : List α) :
    (judgeAccepted cfg s p' r' obj' dp).state =
      { params := p'
        residual := r'
        objective := obj'
        lambda := max (s.lambda / cfg.factor) cfg.lambdaFloor
        iteration := s.iteration + 1
        rejections := 0 } := by
  unfold judgeAccepted
  simp only
  split_ifs <;> rfl

theorem judgeRejected_iterating (cfg : Config α) (s s' : IterState α)
    (h : judgeRejected cfg s = .iterating s') : s'.iteration ≤ cfg.maxIterations := by
  unfold judgeRejected at h
  simp only at h
  split_ifs at h with h1 h2
  cases h
  exact Nat.le_of_not_lt h1

theorem judgeAccepted_iterating (cfg : Config α) (s s' : IterState α) (p' r' : List α)
    (obj' : α) (dp : List α) (h : judgeAccepted cfg s p' r' obj' dp = .iterating s') :
    s'.iteration ≤ cfg.maxIterations := by
  unfold judgeAccepted at h
  simp only at h
  split_ifs at h with h1 h2
  cases h
  exact Nat.le_of_not_lt h2

/-- One pass of the iteration either keeps parameters, residuals and
objective, or moves to a trial point the model accepts whose objective is
strictly smaller. -/
theorem lmStep_kept_or_moved (cfg : Config α) (num : Numerics α) (f : Callback α)
    (xs ys : List α) (s : IterState α) :
    ((lmStep cfg num f xs ys s).state.params = s.params
        ∧ (lmStep cfg num f xs ys s).state.residual = s.residual
        ∧ (lmStep cfg num f xs ys s).state.objective = s.objective)
      ∨ ∃ pred, f (lmStep cfg num f xs ys s).state.params xs = some pred
        ∧ (lmStep cfg num f xs ys s).state.residual = residuals ys pred
        ∧ (lmStep cfg num f xs ys s).state.objective = sumSquares (residuals ys pred)
        ∧ (lmStep cfg num f xs ys s).state.objective < s.objective := by
  unfold lmStep
  split
  · left
    simp [Phase.state]
  · split
    · left
      simp [judgeRejected_state]
    · simp only
      split
      · left
        simp [judgeRejected_state]
      · rename_i pred hpred
        split_ifs with hlt
        · right
          refine ⟨pred, ?_, ?_, ?_, ?_⟩ <;> simp [judgeAccepted_state, hpred, hlt]
        · left
          simp [judgeRejected_state]

theorem lmStep_iteration (cfg : Config α) (num : Numerics α) (f : Callback α)
    (xs ys : List α) (s : IterState α) :
    (lmStep cfg num f xs ys s).state.iteration = s.iteration + 1 := by
  unfold lmStep
  split
  · simp [Phase.state]
  · split
    · simp [judgeRejected_state]
    · simp only
      split
      · simp [judgeRejected_state]
      · split_ifs <;> simp [judgeAccepted_state, judgeRejected_state]

theorem lmStep_iterating (cfg : Config α) (num : Numerics α) (f : Callback α)
    (xs ys : List α) (s s' : IterState α) (h : lmStep cfg num f xs ys s = .iterating s') :
    s'.iteration ≤ cfg.maxIterations := by
  unfold lmStep at h
  split at h
  · cases h
  · split at h
    · exact judgeRejected_iterating cfg s s' h
    · simp only at h
      split at h
      · exact judgeRejected_iterating cfg s s' h
      · split_ifs at h
        · exact judgeAccepted_iterating cfg s s' _ _ _ _ h
        · exact judgeRejected_iterating cfg s s' h

theorem run_terminal (cfg : Config α) (num : Numerics α) (f : Callback α)
    (xs ys : List α) (n : Nat) (ph : Phase α) (h : ph.isTerminal = true) :
    run cfg num f xs ys n ph = ph := by
  cases n <;> cases ph <;> simp_all [run, Phase.isTerminal]

theorem run_add (cfg : Config α) (num : Numerics α) (f : Callback α)
    (xs ys : List α) (m k : Nat) (ph : Phase α) :
    run cfg num f xs ys (m + k) ph = run cfg num f xs ys k (run cfg num f xs ys m ph) := by
  induction m generalizing ph with
  | zero => simp [run]
  | succ m ih =>
    cases ph with
    | iterating s =>
      rw [Nat.succ_add]
      simp only [run]
      exact ih _
    | converged s => simp [run_terminal, Phase.isTerminal]
    | maxIterationsExceeded s => simp [run_terminal, Phase.isTerminal]
    | diverged s => simp [run_terminal, Phase.isTerminal]

theorem lmStep_coherent_le (cfg : Config α) (num : Numerics α) (f : Callback α)
    (xs ys : List α) (s : IterState α) (h : Coherent f xs ys s) :
    Coherent f xs ys (lmStep cfg num f xs ys s).state
      ∧ (lmStep cfg num f xs ys s).state.objective ≤ s.objective := by
  rcases lmStep_kept_or_moved cfg num f xs ys s with ⟨hp, hr, ho⟩ | ⟨pred, hf, hr, ho, hlt⟩
  · obtain ⟨pred, hf, hr', ho'⟩ := h
    refine ⟨⟨pred, ?_, ?_, ?_⟩, le_of_eq ho⟩
    · rw [hp]; exact hf
    · rw [hr]; exact hr'
    · rw [ho]; exact ho'
  · exact ⟨⟨pred, hf, hr, ho⟩, le_of_lt hlt⟩

theorem run_coherent_le (cfg : Config α) (num : Numerics α) (f : Callback α)
    (xs ys : List α) (n : Nat) (ph : Phase α) (h : Coherent f xs ys ph.state) :
    Coherent f xs ys (run cfg num f xs ys n ph).state
      ∧ (run cfg num f xs ys n ph).state.objective ≤ ph.state.objective := by
  induction n generalizing ph with
  | zero => exact ⟨by simpa [run] using h, by simp [run]⟩
  | succ n ih =>
    cases ph with
    | iterating s =>
      simp only [run]
      have hstep := lmStep_coherent_le cfg num f xs ys s h
      have hrest := ih (lmStep cfg num f xs ys s) hstep.1
      exact ⟨hrest.1, le_trans hrest.2 hstep.2⟩
    | converged s => exact ⟨by simpa [run] using h, by simp [run]⟩
    | maxIterationsExceeded s => exact ⟨by simpa [run] using h, by simp [run]⟩
    | diverged s => exact ⟨by simpa [run] using h, by simp [run]⟩

theorem enter_ok (cfg : Config α) (f : Callback α) (p0 : List α) (data : List (α × α))
    (s0 : IterState α) (h : enter cfg f p0 data = .ok s0) :
    Coherent f (data.map Prod.fst) (data.map Prod.snd) s0 ∧ s0.iteration = 0
      ∧ s0.params = p0 ∧ p0.length < data.length := by
  unfold enter at h
  split_ifs at h with hle
  split at h
  · cases h
  · rename_i pred hpred
    cases h
    exact ⟨⟨pred, hpred, rfl, rfl⟩, rfl, rfl, Nat.lt_of_not_le hle⟩

theorem sumSquares_residuals (ys pred : List α) :
    sumSquares (residuals ys pred) = (List.zipWith (fun y m => (y - m) ^ 2) ys pred).sum := by
  unfold sumSquares residuals
  rw [List.map_zipWith]
  congr 1
  congr 1
  funext y m
  ring

theorem coherent_objectiveAt (f : Callback α) (data : List (α × α)) (s : IterState α)
    (h : Coherent f (data.map Prod.fst) (data.map Prod.snd) s) :
    objectiveAt f data s.params = some s.objective := by
  obtain ⟨pred, hf, _, ho⟩ := h
  simp [objectiveAt, hf, ho, sumSquares_residuals]

/-- From an `Iterating` state within the iteration limit, passes of the loop
reach a terminal state as soon as their number exceeds what is left of the
limit; the terminal state is reached after exactly the number of passes its
iteration count records. -/
theorem run_reaches_terminal (cfg : Config α) (num : Numerics α) (f : Callback α)
    (xs ys : List α) (k : Nat) (s : IterState α) (hs : s.iteration ≤ cfg.maxIterations)
    (hk : cfg.maxIterations < s.iteration + k) :
    ∃ n, n ≤ k ∧ (run cfg num f xs ys n (.iterating s)).isTerminal = true
      ∧ (run cfg num f xs ys n (.iterating s)).state.iteration = s.iteration + n
      ∧ run cfg num f xs ys k (.iterating s) = run cfg num f xs ys n (.iterating s) := by
  induction k generalizing s with
  | zero => omega
  | succ k ih =>
    cases hph : lmStep cfg num f xs ys s with
    | iterating s' =>
      have hit := lmStep_iteration cfg num f xs ys s
      rw [hph] at hit
      simp only [Phase.state] at hit
      have hle := lmStep_iterating cfg num f xs ys s s' hph
      obtain ⟨n, hn, ht, hi, hr⟩ := ih s' hle (by omega)
      refine ⟨n + 1, by omega, ?_, ?_, ?_⟩
      · simpa [run, hph] using ht
      · simp only [run, hph]
        rw [hi, hit]
        omega
      · simpa [run, hph] using hr
    | converged s' =>
      have hit := lmStep_iteration cfg num f xs ys s
      refine ⟨1, by omega, ?_, ?_, ?_⟩
      · simp [run, hph, Phase.isTerminal]
      · simpa [run] using hit
      · simp [run, hph, run_terminal, Phase.isTerminal]
    | maxIterationsExceeded s' =>
      have hit := lmStep_iteration cfg num f xs ys s
      refine ⟨1, by omega, ?_, ?_, ?_⟩
      · simp [run, hph, Phase.isTerminal]
      · simpa [run] using hit
      · simp [run, hph, run_terminal, Phase.isTerminal]
    | diverged s' =>
      have hit := lmStep_iteration cfg num f xs ys s
      refine ⟨1, by omega, ?_, ?_, ?_⟩
      · simp [run, hph, Phase.isTerminal]
      · simpa [run] using hit
      · simp [run, hph, run_terminal, Phase.isTerminal]

theorem report_terminal (cfg : Config α) (num : Numerics α) (f : Callback α)
    (xs : List α) (ph : Phase α) (h : ph.isTerminal = true) :
    ∃ rep, report cfg num f xs ph = some rep ∧ rep.iterations = ph.state.iteration
      ∧ ((∃ r, rep.outcome = .converged r) ∨ (∃ b, rep.outcome = .maxIterationsExceeded b)
        ∨ (∃ b, rep.outcome = .diverged b)) := by
  cases ph with
  | iterating s => simp [Phase.isTerminal] at h
  | converged s =>
    cases hx : extract cfg num f xs s with
    | none =>
      exact ⟨⟨.diverged s.params, s.iteration⟩, by simp [report, hx], rfl,
        Or.inr (Or.inr ⟨_, rfl⟩)⟩
    | some r =>
      exact ⟨⟨.converged r, s.iteration⟩, by simp [report, hx], rfl, Or.inl ⟨_, rfl⟩⟩
  | maxIterationsExceeded s => exact ⟨_, rfl, rfl, Or.inr (Or.inl ⟨_, rfl⟩)⟩
  | diverged s => exact ⟨_, rfl, rfl, Or.inr (Or.inr ⟨_, rfl⟩)⟩

theorem report_converged (cfg : Config α) (num : Numerics α) (f : Callback α)
    (xs : List α) (ph : Phase α) (r : FitResult α) (k : Nat)
    (h : report cfg num f xs ph = some ⟨.converged r, k⟩) :
    r.parameters = ph.state.params ∧ r.chiSquared = ph.state.objective := by
  cases ph with
  | iterating s => simp [report] at h
  | converged s =>
    simp only [report] at h
    cases hx : extract cfg num f xs s with
    | none => simp [hx] at h
    | some r' =>
      simp only [hx, Option.some.injEq, Report.mk.injEq, Outcome.converged.injEq] at h
      obtain ⟨hr, _⟩ := h
      subst hr
      unfold extract at hx
      split at hx
      · cases hx
      · simp only [Option.some.injEq] at hx
        subst hx
        exact ⟨rfl, rfl⟩
  | maxIterationsExceeded s => simp [report] at h
  | diverged s => simp [report] at h

theorem report_not_entry_failure (cfg : Config α) (num : Numerics α) (f : Callback α)
    (xs : List α) (ph : Phase α) (rep : Report α) (h : report cfg num f xs ph = some rep) :
    rep.outcome ≠ .domainError ∧ rep.outcome ≠ .invalidDegreesOfFreedom := by
  cases ph with
  | iterating s => simp [report] at h
  | converged s =>
    simp only [report] at h
    cases hx : extract cfg num f xs s with
    | none =>
      simp only [hx, Option.some.injEq] at h
      subst h
      simp
    | some r =>
      simp only [hx, Option.some.injEq] at h
      subst h
      simp
  | maxIterationsExceeded s =>
    simp only [report, Option.some.injEq] at h
    subst h
    simp
  | diverged s =>
    simp only [report, Option.some.injEq] at h
    subst h
    simp

/-- C3 (monotonic descent): once `evaluate` has passed initialisation, the
model accepts the current iterate after any number of passes of the loop,
and the sum of squared residuals at the iterate after `n` passes is at most
the one at the iterate after `m ≤ n` passes. -/
theorem objective_nonincreasing (cfg : Config α) (num : Numerics α) (f : Callback α)
    (p0 : List α) (data : List (α × α)) (s0 : IterState α)
    (h : enter cfg f p0 data = .ok s0) (m n : Nat) (hmn : m ≤ n) :
    ∃ a b,
      objectiveAt f data
          (run cfg num f (data.map Prod.fst) (data.map Prod.snd) m (.iterating s0)).state.params
        = some a
      ∧ objectiveAt f data
          (run cfg num f (data.map Prod.fst) (data.map Prod.snd) n (.iterating s0)).state.params
        = some b
      ∧ b ≤ a := by
  obtain ⟨hco, _, _, _⟩ := enter_ok cfg f p0 data s0 h
  obtain ⟨k, rfl⟩ := Nat.exists_eq_add_of_le hmn
  have hm := run_coherent_le cfg num f (data.map Prod.fst) (data.map Prod.snd) m
    (.iterating s0) hco
  have hk := run_coherent_le cfg num f (data.map Prod.fst) (data.map Prod.snd) k _ hm.1
  rw [← run_add] at hk
  exact ⟨_, _, coherent_objectiveAt f data _ hm.1, coherent_objectiveAt f data _ hk.1, hk.2⟩

/-- C4 (termination): for `N > P ≥ 1` and an initial guess the model accepts,
the loop of `evaluate` reaches a terminal state after `n ≤ maxIterations + 1`
passes, and `evaluate` returns the report of that state: `n` iterations and
one of the outcomes Converged, MaxIterationsExceeded, Diverged. -/
theorem evaluate_terminates (cfg : Config α) (num : Numerics α) (f : Callback α)
    (p0 : List α) (data : List (α × α)) (_hP : 1 ≤ p0.length)
    (hN : p0.length < data.length) (hadm : (f p0 (data.map Prod.fst)).isSome = true) :
    ∃ s0 n rep, enter cfg f p0 data = .ok s0 ∧ n ≤ cfg.maxIterations + 1
      ∧ (run cfg num f (data.map Prod.fst) (data.map Prod.snd) n (.iterating s0)).isTerminal
          = true
      ∧ evaluate cfg num f p0 data = some rep ∧ rep.iterations = n
      ∧ ((∃ r, rep.outcome = .converged r) ∨ (∃ b, rep.outcome = .maxIterationsExceeded b)
        ∨ (∃ b, rep.outcome = .diverged b)) := by
  obtain ⟨pred, hpred⟩ := Option.isSome_iff_exists.mp hadm
  have hent : enter cfg f p0 data = .ok
      { params := p0
        residual := residuals (data.map Prod.snd) pred
        objective := sumSquares (residuals (data.map Prod.snd) pred)
        lambda := cfg.lambdaInit
        iteration := 0
        rejections := 0 } := by
    simp [enter, Nat.not_le.mpr hN, hpred]
  obtain ⟨n, hn, ht, hi, hr⟩ := run_reaches_terminal cfg num f (data.map Prod.fst)
    (data.map Prod.snd) (cfg.maxIterations + 1)
    { params := p0
      residual := residuals (data.map Prod.snd) pred
      objective := sumSquares (residuals (data.map Prod.snd) pred)
      lambda := cfg.lambdaInit
      iteration := 0
      rejections := 0 } (Nat.zero_le _) (by simp)
  obtain ⟨rep, hrep, hiter, hout⟩ := report_terminal cfg num f (data.map Prod.fst) _ ht
  refine ⟨_, n, rep, hent, hn, ht, ?_, ?_, hout⟩
  · simp only [evaluate, hent]
    rw [hr]
    exact hrep
  · rw [hiter, hi]
    simp

/-- C5 (degenerate input): with `N ≤ P`, `evaluate` fails with the
invalid-degrees-of-freedom condition after no iteration, whatever the model
callback and the numerics are; the outcome carries no statistic. -/
theorem evaluate_invalidDegreesOfFreedom (cfg : Config α) (num : Numerics α)
    (f : Callback α) (p0 : List α) (data : List (α × α)) (h : data.length ≤ p0.length) :
    evaluate cfg num f p0 data = some ⟨.invalidDegreesOfFreedom, 0⟩ := by
  simp [evaluate, enter, h]

/-- C8 (domain errors stay inside): when the model raises a domain error at
the trial point `params + Δp` of an iteration, that iteration keeps
parameters and objective and multiplies the damping by the factor (which
increases it for a factor above one and positive damping); `evaluate`
reports the domain error only when `N > P` and the initial guess is
inadmissible, and then it has performed no iteration. -/
theorem domainError_contained (cfg : Config α) (num : Numerics α) (f : Callback α)
    (p0 : List α) (data : List (α × α)) :
    (∀ (s : IterState α) (J : List (List α)) (dp : List α),
        jacobian f cfg.epsilon s.params (data.map Prod.fst) = some J →
        num.solve (damped (gram J) s.lambda) (gradient J s.residual) = some dp →
        f (vadd s.params dp) (data.map Prod.fst) = none →
        (lmStep cfg num f (data.map Prod.fst) (data.map Prod.snd) s).state.params = s.params
          ∧ (lmStep cfg num f (data.map Prod.fst) (data.map Prod.snd) s).state.objective
              = s.objective
          ∧ (lmStep cfg num f (data.map Prod.fst) (data.map Prod.snd) s).state.lambda
              = s.lambda * cfg.factor
          ∧ (1 < cfg.factor → 0 < s.lambda →
              s.lambda
                < (lmStep cfg num f (data.map Prod.fst) (data.map Prod.snd) s).state.lambda))
      ∧ (∀ rep, evaluate cfg num f p0 data = some rep →
          (rep.outcome = .domainError
            ↔ (p0.length < data.length ∧ f p0 (data.map Prod.fst) = none)))
      ∧ (p0.length < data.length → f p0 (data.map Prod.fst) = none →
          evaluate cfg num f p0 data = some ⟨.domainError, 0⟩) := by
  refine ⟨?_, ?_, ?_⟩
  · intro s J dp hJ hs hf
    have hstate : (lmStep cfg num f (data.map Prod.fst) (data.map Prod.snd) s).state
        = { s with lambda := s.lambda * cfg.factor
                   iteration := s.iteration + 1
                   rejections := s.rejections + 1 } := by
      simp only [lmStep, hJ, hs, hf]
      exact judgeRejected_state cfg s
    rw [hstate]
    refine ⟨rfl, rfl, rfl, ?_⟩
    intro hfac hlam
    simpa using (lt_mul_iff_one_lt_right hlam).mpr hfac
  · intro rep hrep
    unfold evaluate at hrep
    unfold enter at hrep
    by_cases hle : data.length ≤ p0.length
    · simp only [if_pos hle, Option.some.injEq] at hrep
      subst hrep
      simp
      intro hlt
      omega
    · simp only [if_neg hle] at hrep
      cases hf : f p0 (data.map Prod.fst) with
      | none =>
        simp only [hf, Option.some.injEq] at hrep
        subst hrep
        simp
        omega
      | some pred =>
        simp only [hf] at hrep
        have hne := (report_not_entry_failure cfg num f _ _ rep hrep).1
        simp [hne]
  · intro hlt hf
    simp [evaluate, enter, Nat.not_le.mpr hlt, hf]

/-- C9 (step acceptance): for an iteration whose Jacobian is defined, whose
solve yields `Δp` and whose trial point `params + Δp` the model accepts: when
the trial objective is strictly less than the current objective the step is
accepted (trial parameters and objective taken, damping divided by the
factor and clamped to the floor, rejection count reset); otherwise, and so
for an exactly equal trial objective, it is rejected (parameters and
objective unchanged, damping multiplied by the factor, rejection count
raised). -/
theorem step_acceptance (cfg : Config α) (num : Numerics α) (f : Callback α)
    (xs ys : List α) (s : IterState α) (J : List (List α)) (dp pred : List α)
    (hJ : jacobian f cfg.epsilon s.params xs = some J)
    (hs : num.solve (damped (gram J) s.lambda) (gradient J s.residual) = some dp)
    (hf : f (vadd s.params dp) xs = some pred) :
    (sumSquares (residuals ys pred) < s.objective →
        (lmStep cfg num f xs ys s).state.params = vadd s.params dp
          ∧ (lmStep cfg num f xs ys s).state.objective = sumSquares (residuals ys pred)
          ∧ (lmStep cfg num f xs ys s).state.lambda
              = max (s.lambda / cfg.factor) cfg.lambdaFloor
          ∧ (lmStep cfg num f xs ys s).state.rejections = 0)
      ∧ (s.objective ≤ sumSquares (residuals ys pred) →
        (lmStep cfg num f xs ys s).state.params = s.params
          ∧ (lmStep cfg num f xs ys s).state.objective = s.objective
          ∧ (lmStep cfg num f xs ys s).state.lambda = s.lambda * cfg.factor
          ∧ (lmStep cfg num f xs ys s).state.rejections = s.rejections + 1) := by
  constructor
  · intro hlt
    have hstate : (lmStep cfg num f xs ys s).state
        = { params := vadd s.params dp
            residual := residuals ys pred
            objective := sumSquares (residuals ys pred)
            lambda := max (s.lambda / cfg.factor) cfg.lambdaFloor
            iteration := s.iteration + 1
            rejections := 0 } := by
      simp only [lmStep, hJ, hs, hf, if_pos hlt]
      exact judgeAccepted_state cfg s _ _ _ _
    rw [hstate]
    exact ⟨rfl, rfl, rfl, rfl⟩
  · intro hge
    have hstate : (lmStep cfg num f xs ys s).state
        = { s with lambda := s.lambda * cfg.factor
                   iteration := s.iteration + 1
                   rejections := s.rejections + 1 } := by
      simp only [lmStep, hJ, hs, hf, if_neg (not_lt.mpr hge)]
      exact judgeRejected_state cfg s
    rw [hstate]
    exact ⟨rfl, rfl, rfl, rfl⟩

/-- C10 (chi-squared): when `evaluate` returns a Fit Result, the model accepts
the returned parameters and the returned chi-squared is the raw sum of
`(y_observed[i] − model(finalParams, x)[i])²` over the data points, not
divided by `N − P`. -/
theorem chiSquared_is_raw_sum (cfg : Config α) (num : Numerics α) (f : Callback α)
    (p0 : List α) (data : List (α × α)) (r : FitResult α) (k : Nat)
    (h : evaluate cfg num f p0 data = some ⟨.converged r, k⟩) :
    ∃ pred, f r.parameters (data.map Prod.fst) = some pred
      ∧ r.chiSquared
          = (List.zipWith (fun y m => (y - m) ^ 2) (data.map Prod.snd) pred).sum := by
  unfold evaluate at h
  split at h
  · simp at h
  · simp at h
  · rename_i s0 hent
    obtain ⟨hco, _, _, _⟩ := enter_ok cfg f p0 data s0 hent
    obtain ⟨hpar, hchi⟩ := report_converged cfg num f _ _ r k h
    obtain ⟨pred, hf, _, ho⟩ := (run_coherent_le cfg num f (data.map Prod.fst)
      (data.map Prod.snd) (cfg.maxIterations + 1) (.iterating s0) hco).1
    refine ⟨pred, ?_, ?_⟩
    · rw [hpar]; exact hf
    · rw [hchi, ho, sumSquares_residuals]

end EngineTheorems

/-! ## Theorems: the test fixtures -/

theorem increasing_chain (l : List ℕ) (h : increasing l = true) : l.Chain' (· < ·) := by
  induction l with
  | nil => exact List.chain'_nil
  | cons a t ih =>
    cases t with
    | nil => exact List.chain'_singleton a
    | cons b t' =>
      simp only [increasing, Bool.and_eq_true, decide_eq_true_eq] at h
      exact List.chain'_cons.mpr ⟨h.1, ih h.2⟩

theorem pairwise_cast_of_increasing (l : List ℕ) (h : increasing l = true) :
    (l.map fun (x : ℕ) => (x : ℚ)).Pairwise (· < ·) := by
  rw [List.pairwise_map]
  exact (List.chain'_iff_pairwise.mp (increasing_chain l h)).imp
    fun hab => Nat.cast_lt.mpr hab

theorem pairwise_cast (l : List ℕ) (h : l.Pairwise (· < ·)) :
    (l.map fun (x : ℕ) => (x : ℚ)).Pairwise (· < ·) := by
  rw [List.pairwise_map]
  exact h.imp fun hab => Nat.cast_lt.mpr hab

theorem gaussianFitXs_pairwise : gaussianFitXs.Pairwise (· < ·) := by
  unfold gaussianFitXs
  rw [List.pairwise_map]
  exact (List.pairwise_lt_range _).imp fun hab => by omega

theorem simulatedFitXs_pairwise : simulatedFitXs.Pairwise (· < ·) := by
  unfold simulatedFitXs
  rw [List.pairwise_map]
  exact (List.pairwise_lt_range _).imp fun hab => by omega

theorem gaussianFitXs_length : gaussianFitXs.length = 50000 := by
  unfold gaussianFitXs
  rw [List.length_map, List.length_range]

theorem simulatedFitXs_length : simulatedFitXs.length = 500 := by
  unfold simulatedFitXs
  rw [List.length_map, List.length_range]

theorem sKmerData_length : sKmerData.length = 266 := by decide!

theorem sKmerData2_length : sKmerData2.length = 967 := by decide!

theorem sKmerData_increasing : increasing (sKmerData.map Prod.fst) = true := by decide!

theorem sKmerData2_increasing : increasing (sKmerData2.map Prod.fst) = true := by decide!

/-- C17: every fit the test suite constructs is a valid input: `P ≥ 1` and
`N ≥ P + 1` with `(N, P)` equal to `(50000, 3)`, `(500, 4)`, `(266, 4)`,
`(967, 4)`, so `49997`, `496`, `262` and `963` degrees of freedom; the `x`
values of each data set are strictly increasing; and the initial guess
raises no `DomainError` in the model callback of the fit, whatever the
library does and whatever the inputs are. -/
theorem test_fits_valid :
    (gaussianFitGuess.length = 3 ∧ gaussianFitXs.length = 50000
        ∧ 1 ≤ gaussianFitGuess.length
        ∧ gaussianFitGuess.length + 1 ≤ gaussianFitXs.length
        ∧ gaussianFitXs.length - gaussianFitGuess.length = 49997
        ∧ (gaussianFitXs.map fun (x : ℕ) => (x : ℚ)).Pairwise (· < ·)
        ∧ ∀ (B : Boost ℚ) (pX : List ℚ),
            gaussian B gaussianFitGuess pX ≠ .error .DomainError)
      ∧ (simulatedFitGuess.length = 4 ∧ simulatedFitXs.length = 500
        ∧ 1 ≤ simulatedFitGuess.length
        ∧ simulatedFitGuess.length + 1 ≤ simulatedFitXs.length
        ∧ simulatedFitXs.length - simulatedFitGuess.length = 496
        ∧ (simulatedFitXs.map fun (x : ℕ) => (x : ℚ)).Pairwise (· < ·)
        ∧ ∀ (B : Boost ℚ) (pX : List ℚ),
            kmerModel B simulatedFitGuess pX ≠ .error .DomainError)
      ∧ (realFitGuess.length = 4 ∧ sKmerData.length = 266
        ∧ 1 ≤ realFitGuess.length
        ∧ realFitGuess.length + 1 ≤ sKmerData.length
        ∧ sKmerData.length - realFitGuess.length = 262
        ∧ (sKmerData.map fun (r : ℕ × ℕ) => (r.1 : ℚ)).Pairwise (· < ·)
        ∧ ∀ (B : Boost ℚ) (pX : List ℚ),
            kmerModel B realFitGuess pX ≠ .error .DomainError)
      ∧ (realFit2Guess.length = 4 ∧ sKmerData2.length = 967
        ∧ 1 ≤ realFit2Guess.length
        ∧ realFit2Guess.length + 1 ≤ sKmerData2.length
        ∧ sKmerData2.length - realFit2Guess.length = 963
        ∧ (sKmerData2.map fun (r : ℕ × ℕ) => (r.1 : ℚ)).Pairwise (· < ·)
        ∧ ∀ (B : Boost ℚ) (pX : List ℚ),
            kmerModel B realFit2Guess pX ≠ .error .DomainError) := by
  have hg := gaussianFitXs_length
  have hs := simulatedFitXs_length
  have h1 := sKmerData_length
  have h2 := sKmerData2_length
  refine ⟨⟨rfl, hg, by decide, ?_, ?_, pairwise_cast _ gaussianFitXs_pairwise, ?_⟩,
    ⟨rfl, hs, by decide, ?_, ?_, pairwise_cast _ simulatedFitXs_pairwise, ?_⟩,
    ⟨rfl, h1, by decide, ?_, ?_, ?_, ?_⟩,
    ⟨rfl, h2, by decide, ?_, ?_, ?_, ?_⟩⟩
  · rw [hg]; decide
  · rw [hg]; rfl
  · intro B pX
    exact gaussian_ne_domainError B 100 10 5 [] pX (by norm_num)
  · rw [hs]; decide
  · rw [hs]; rfl
  · intro B pX
    exact kmerModel_ne_domainError B (1 / 2) 1 200 50 [] pX (by norm_num)
  · rw [h1]; decide
  · rw [h1]; rfl
  · have h := pairwise_cast_of_increasing _ sKmerData_increasing
    rwa [List.map_map] at h
  · intro B pX
    exact kmerModel_ne_domainError B (8 / 10) (95 / 100) 150 20 [] pX (by norm_num)
  · rw [h2]; decide
  · rw [h2]; rfl
  · have h := pairwise_cast_of_increasing _ sKmerData2_increasing
    rwa [List.map_map] at h
  · intro B pX
    exact kmerModel_ne_domainError B (9 / 10) (1 / 10) 700 10 [] pX (by norm_num)

/-! ## Concrete runs of the engine -/

/-- A negative `stddev` raises the domain error even when every library call
would throw. -/
theorem gaussian_domainError_iff_witness :
    gaussian (⟨fun _ _ => none, fun _ => none⟩ : Boost ℚ) [100, 10, -5] [1, 2]
      = .error .DomainError :=
  (gaussian_domainError_iff _ 100 10 (-5) [] [1, 2]).mpr (by decide)

/-- A negative `lambda` raises the domain error even when every library call
would throw. -/
theorem kmerModel_domainError_iff_witness :
    kmerModel (⟨fun _ _ => none, fun _ => none⟩ : Boost ℚ) [1 / 2, -1, 200, 50] [1, 2]
      = .error .DomainError :=
  (kmerModel_domainError_iff _ (1 / 2) (-1) 200 50 [] [1, 2]).mpr (Or.inr (by decide))

/-- Fitting `y = a·x` to `(1, 2), (2, 5)` from `a = 1`: the objective after
three passes is at most the one after one pass. -/
theorem objective_nonincreasing_witness :
    enter sampleConfig lineModel [1] [(1, 2), (2, 5)]
        = .ok ⟨[1], [1, 3], 10, 1 / 1000, 0, 0⟩
      ∧ ∃ a b,
        objectiveAt lineModel [(1, 2), (2, 5)]
            (run sampleConfig scalarNumerics lineModel [1, 2] [2, 5] 1
              (.iterating ⟨[1], [1, 3], 10, 1 / 1000, 0, 0⟩)).state.params = some a
        ∧ objectiveAt lineModel [(1, 2), (2, 5)]
            (run sampleConfig scalarNumerics lineModel [1, 2] [2, 5] 3
              (.iterating ⟨[1], [1, 3], 10, 1 / 1000, 0, 0⟩)).state.params = some b
        ∧ b ≤ a :=
  ⟨by with_unfolding_all rfl,
    objective_nonincreasing sampleConfig scalarNumerics lineModel [1] [(1, 2), (2, 5)]
      ⟨[1], [1, 3], 10, 1 / 1000, 0, 0⟩ (by with_unfolding_all rfl) 1 3 (by decide)⟩

/-- Fitting `y = a·x` to `(1, 2), (2, 5)` from `a = 1` ends in a terminal
state. -/
theorem evaluate_terminates_witness :
    ∃ s0 n rep, enter sampleConfig lineModel [1] [(1, 2), (2, 5)] = .ok s0
      ∧ n ≤ sampleConfig.maxIterations + 1
      ∧ (run sampleConfig scalarNumerics lineModel
            (([(1, 2), (2, 5)] : List (ℚ × ℚ)).map Prod.fst)
            (([(1, 2), (2, 5)] : List (ℚ × ℚ)).map Prod.snd) n (.iterating s0)).isTerminal
          = true
      ∧ evaluate sampleConfig scalarNumerics lineModel [1] [(1, 2), (2, 5)] = some rep
      ∧ rep.iterations = n
      ∧ ((∃ r, rep.outcome = .converged r) ∨ (∃ b, rep.outcome = .maxIterationsExceeded b)
        ∨ (∃ b, rep.outcome = .diverged b)) :=
  evaluate_terminates sampleConfig scalarNumerics lineModel [1] [(1, 2), (2, 5)]
    (by decide) (by decide) (by decide!)

/-- One data point for one parameter is refused at entry. -/
theorem evaluate_invalidDegreesOfFreedom_witness :
    evaluate sampleConfig scalarNumerics lineModel [1] [(1, 1)]
      = some ⟨.invalidDegreesOfFreedom, 0⟩ :=
  evaluate_invalidDegreesOfFreedom sampleConfig scalarNumerics lineModel [1] [(1, 1)]
    (by decide)

/-- With data `(1, −3), (2, −6)` the step from `a = 1` under damping `1` lands
on `a = −1`, which `lineModel` refuses: the parameters stay and the damping
becomes `10`; from the inadmissible guess `a = −1`, `evaluate` reports the
domain error. -/
theorem domainError_contained_witness :
    ((lmStep sampleConfig scalarNumerics lineModel [1, 2] [-3, -6]
          ⟨[1], [-4, -8], 80, 1, 0, 0⟩).state.params = [1]
        ∧ (lmStep sampleConfig scalarNumerics lineModel [1, 2] [-3, -6]
          ⟨[1], [-4, -8], 80, 1, 0, 0⟩).state.lambda = 1 * 10)
      ∧ evaluate sampleConfig scalarNumerics lineModel [-1] [(1, -3), (2, -6)]
          = some ⟨.domainError, 0⟩ := by
  have h := (domainError_contained sampleConfig scalarNumerics lineModel [-1]
    [(1, -3), (2, -6)]).1 ⟨[1], [-4, -8], 80, 1, 0, 0⟩ [[1, 2]] [-2]
    (by decide!) (by decide!) (by decide!)
  exact ⟨⟨h.1, h.2.2.1⟩,
    (domainError_contained sampleConfig scalarNumerics lineModel [-1]
      [(1, -3), (2, -6)]).2.2 (by decide) (by decide!)⟩

/-- On the exactly fitted data `(1, 1), (2, 2)` the trial from `a = 1` ties
with the current objective `0` and is rejected; on `(1, 2), (2, 5)` the
trial `a = 343/143` lowers the objective and is accepted. -/
theorem step_acceptance_witness :
    (lmStep sampleConfig scalarNumerics lineModel [1, 2] [1, 2]
        ⟨[1], [0, 0], 0, 1 / 1000, 0, 0⟩).state.params = [1]
      ∧ (lmStep sampleConfig scalarNumerics lineModel [1, 2] [1, 2]
        ⟨[1], [0, 0], 0, 1 / 1000, 0, 0⟩).state.lambda = 1 / 1000 * 10
      ∧ (lmStep sampleConfig scalarNumerics lineModel [1, 2] [2, 5]
        ⟨[1], [1, 3], 10, 1 / 1000, 0, 0⟩).state.params = [343 / 143] :=
  ⟨((step_acceptance sampleConfig scalarNumerics lineModel [1, 2] [1, 2]
        ⟨[1], [0, 0], 0, 1 / 1000, 0, 0⟩ [[1, 2]] [0] [1, 2]
        (by decide!) (by decide!) (by decide!)).2 (by decide!)).1,
   ((step_acceptance sampleConfig scalarNumerics lineModel [1, 2] [1, 2]
        ⟨[1], [0, 0], 0, 1 / 1000, 0, 0⟩ [[1, 2]] [0] [1, 2]
        (by decide!) (by decide!) (by decide!)).2 (by decide!)).2.2.1,
   ((step_acceptance sampleConfig scalarNumerics lineModel [1, 2] [2, 5]
        ⟨[1], [1, 3], 10, 1 / 1000, 0, 0⟩ [[1, 2]] [200 / 143] [343 / 143, 686 / 143]
        (by decide!) (by decide!) (by decide!)).1 (by decide!)).1.trans (by decide!)⟩

/-- Fitting `y = a·x` to `(1, 2), (2, 5)` from `a = 1` converges after three
iterations; the chi-squared returned is the sum of squared residuals at the
returned parameter. -/
theorem chiSquared_is_raw_sum_witness :
    evaluate sampleConfig scalarNumerics lineModel [1] [(1, 2), (2, 5)]
        = some ⟨.converged ⟨[343237752343 / 143015730143],
            [818139962733415952018 / 20453499068335398800449],
            4090699813667079760090 / 20453499068335398800449⟩, 3⟩
      ∧ ∃ pred, lineModel [343237752343 / 143015730143]
            (([(1, 2), (2, 5)] : List (ℚ × ℚ)).map Prod.fst) = some pred
        ∧ (4090699813667079760090 / 20453499068335398800449 : ℚ)
            = (List.zipWith (fun y m => (y - m) ^ 2)
                (([(1, 2), (2, 5)] : List (ℚ × ℚ)).map Prod.snd) pred).sum :=
  ⟨by decide!,
    chiSquared_is_raw_sum sampleConfig scalarNumerics lineModel [1] [(1, 2), (2, 5)]
      ⟨[343237752343 / 143015730143], [818139962733415952018 / 20453499068335398800449],
        4090699813667079760090 / 20453499068335398800449⟩ 3 (by decide!)⟩

/-! ## Concrete runs of the callbacks -/

/-- On the inputs `10, 15` and on their permutation `15, 10`. -/
theorem callbacks_pointwise_witness :
    ∃ g : ℚ → ℚ, gaussian sampleBoost [100, 10, 5] [15, 10] = .ok ([15, 10].map g)
      ∧ [(5 : ℚ), 5 / 2].Perm ([15, 10].map g) := by
  obtain ⟨g, hg⟩ := (callbacks_pointwise sampleBoost).1 100 10 5 []
  exact ⟨g, (hg [10, 15] [5, 5 / 2] (by with_unfolding_all rfl)).2 [15, 10]
    (List.Perm.swap 15 10 [])⟩

/-- With the library returning `d = 0.04807692307692307`, `w = 100` and the
factor `c = 2`, which no rounding separates. -/
theorem gaussianRounded_pointwise_witness :
    ∃ ys, gaussianRounded roundDouble (fixedBoost (866076851417403 / 18014398509481984))
          [100, 10, 5] [9] = .ok ys
      ∧ gaussianRounded roundDouble (fixedBoost (866076851417403 / 18014398509481984))
          [2 * 100, 10, 5] [9] = .ok (ys.map fun y => 2 * y) := by
  obtain ⟨ys, h1, _, _, _, _, h6⟩ := gaussianRounded_pointwise roundDouble
    (fixedBoost (866076851417403 / 18014398509481984)) 100 10 5 2 [] [9]
    (fun _ => some (866076851417403 / 18014398509481984))
    (fun _ => 866076851417403 / 18014398509481984)
    (by decide!) (by norm_num) rfl (fun _ _ => rfl)
  refine ⟨ys, h1, h6 ?_⟩
  intro x _
  show roundDouble (2 * 100 * (866076851417403 / 18014398509481984))
    = 2 * roundDouble (100 * (866076851417403 / 18014398509481984))
  decide!

/-- With the linear library and `mix = 0.25`, `lambda = 1.25`, `mean = 0`,
`stddev = 0.125` on the inputs `0.25, 0.75`: `D = 1/2`, `scale = 2000`, no
operation rounds, and the outputs `421.875` and `578.125` sum to `1000`. -/
theorem kmerModelRounded_normalised_witness :
    ∃ ys, kmerModelRounded roundDouble linearBoost [1 / 4, 5 / 4, 0, 1 / 8] [1 / 4, 3 / 4]
          = .ok ys
      ∧ ys.sum = 1000 := by
  obtain ⟨ys, h1, _, _, h4⟩ := kmerModelRounded_normalised roundDouble linearBoost
    (1 / 4) (5 / 4) 0 (1 / 8) [] [1 / 4, 3 / 4]
    (fun k => some ((5 / 4 + k) / 4)) (fun x => some (1 / 8 * (1 + (x - 0))))
    (fun k => (5 / 4 + k) / 4) (fun x => 1 / 8 * (1 + (x - 0))) (by norm_num) rfl rfl
    (fun _ _ => rfl) (fun _ _ => rfl)
  refine ⟨ys, h1, (h4 ?_ (by decide!) (by decide!) ?_ (by decide!)).2.2 (by decide!)⟩
  · intro x hx
    simp only [List.mem_cons, List.mem_singleton, List.not_mem_nil, or_false] at hx
    rcases hx with rfl | rfl | rfl | rfl <;> decide!
  · intro x hx
    simp only [List.mem_cons, List.mem_singleton, List.not_mem_nil, or_false] at hx
    rcases hx with rfl | rfl <;> decide!

end Gossamer
